import Mathlib

/-!
Verification of the csp-tool-safety-profile gateway and receipt-chain core.

This file shallowly embeds the Python sources of the repository:
* `src/scripts/crypto_core.py` (JCS canonicalization, hashing, receipt
  creation/signing, chain verification),
* `src/examples/simulated/assay_demo/tool_safety.py` (the risk classifier),
* `src/reference/python_gateway/src/csp_gateway/` (types, registry, authn,
  authz, credentials, preflight, incident, receipts, gateway orchestration),
and proves the frozen claims about them.

Modelling conventions:
* Python `dict`/JSON values are embedded as the inductive `Json`; dicts keep
  insertion order, as Python dicts do.
* Machine-independent integers are `Nat`/`Int`; 32-bit overflow in SHA-256 is
  explicit `% 2^32`.
* Nondeterministic inputs (`uuid.uuid4()`, `datetime.now()`) are threaded as
  explicit parameters or fresh-counter state.
* Filesystem-dependent path resolution (`Path.resolve`) is modelled as an
  oracle function carried in the validator state; all theorems hold for every
  oracle.
-/

/-- Json value as produced/consumed by the Python code. Python dicts are
association lists in insertion order; numbers are restricted to integers,
the only numeric shape the embedded programs produce. -/
inductive Json where
  | null : Json
  | bool (b : Bool) : Json
  | num (n : Int) : Json
  | str (s : String) : Json
  | arr (xs : List Json) : Json
  | obj (kvs : List (String × Json)) : Json
  deriving Repr

mutual

/-- Structural decidable equality for `Json` (deriving fails on the nested
list occurrences, so it is written out). -/
def Json.decEq : (a b : Json) → Decidable (a = b)
  | .null, .null => isTrue rfl
  | .bool x, .bool y =>
    if h : x = y then isTrue (by rw [h]) else isFalse (by intro hc; cases hc; exact h rfl)
  | .num x, .num y =>
    if h : x = y then isTrue (by rw [h]) else isFalse (by intro hc; cases hc; exact h rfl)
  | .str x, .str y =>
    if h : x = y then isTrue (by rw [h]) else isFalse (by intro hc; cases hc; exact h rfl)
  | .arr xs, .arr ys =>
    match Json.decEqList xs ys with
    | isTrue h => isTrue (by rw [h])
    | isFalse h => isFalse (by intro hc; cases hc; exact h rfl)
  | .obj xs, .obj ys =>
    match Json.decEqKVs xs ys with
    | isTrue h => isTrue (by rw [h])
    | isFalse h => isFalse (by intro hc; cases hc; exact h rfl)
  | .null, .bool _ => isFalse (by intro hc; cases hc)
  | .null, .num _ => isFalse (by intro hc; cases hc)
  | .null, .str _ => isFalse (by intro hc; cases hc)
  | .null, .arr _ => isFalse (by intro hc; cases hc)
  | .null, .obj _ => isFalse (by intro hc; cases hc)
  | .bool _, .null => isFalse (by intro hc; cases hc)
  | .bool _, .num _ => isFalse (by intro hc; cases hc)
  | .bool _, .str _ => isFalse (by intro hc; cases hc)
  | .bool _, .arr _ => isFalse (by intro hc; cases hc)
  | .bool _, .obj _ => isFalse (by intro hc; cases hc)
  | .num _, .null => isFalse (by intro hc; cases hc)
  | .num _, .bool _ => isFalse (by intro hc; cases hc)
  | .num _, .str _ => isFalse (by intro hc; cases hc)
  | .num _, .arr _ => isFalse (by intro hc; cases hc)
  | .num _, .obj _ => isFalse (by intro hc; cases hc)
  | .str _, .null => isFalse (by intro hc; cases hc)
  | .str _, .bool _ => isFalse (by intro hc; cases hc)
  | .str _, .num _ => isFalse (by intro hc; cases hc)
  | .str _, .arr _ => isFalse (by intro hc; cases hc)
  | .str _, .obj _ => isFalse (by intro hc; cases hc)
  | .arr _, .null => isFalse (by intro hc; cases hc)
  | .arr _, .bool _ => isFalse (by intro hc; cases hc)
  | .arr _, .num _ => isFalse (by intro hc; cases hc)
  | .arr _, .str _ => isFalse (by intro hc; cases hc)
  | .arr _, .obj _ => isFalse (by intro hc; cases hc)
  | .obj _, .null => isFalse (by intro hc; cases hc)
  | .obj _, .bool _ => isFalse (by intro hc; cases hc)
  | .obj _, .num _ => isFalse (by intro hc; cases hc)
  | .obj _, .str _ => isFalse (by intro hc; cases hc)
  | .obj _, .arr _ => isFalse (by intro hc; cases hc)

/-- Decidable equality for lists of Json values. -/
def Json.decEqList : (a b : List Json) → Decidable (a = b)
  | [], [] => isTrue rfl
  | [], _ :: _ => isFalse (by intro hc; cases hc)
  | _ :: _, [] => isFalse (by intro hc; cases hc)
  | x :: xs, y :: ys =>
    match Json.decEq x y with
    | isTrue h1 =>
      match Json.decEqList xs ys with
      | isTrue h2 => isTrue (by rw [h1, h2])
      | isFalse h2 => isFalse (by intro hc; cases hc; exact h2 rfl)
    | isFalse h1 => isFalse (by intro hc; cases hc; exact h1 rfl)

/-- Decidable equality for key-value lists. -/
def Json.decEqKVs : (a b : List (String × Json)) → Decidable (a = b)
  | [], [] => isTrue rfl
  | [], _ :: _ => isFalse (by intro hc; cases hc)
  | _ :: _, [] => isFalse (by intro hc; cases hc)
  | (k1, v1) :: xs, (k2, v2) :: ys =>
    if hk : k1 = k2 then
      match Json.decEq v1 v2 with
      | isTrue h1 =>
        match Json.decEqKVs xs ys with
        | isTrue h2 => isTrue (by rw [hk, h1, h2])
        | isFalse h2 => isFalse (by intro hc; cases hc; exact h2 rfl)
      | isFalse h1 => isFalse (by intro hc; cases hc; exact h1 rfl)
    else isFalse (by intro hc; cases hc; exact hk rfl)

end

instance : DecidableEq Json := Json.decEq

/-- Dictionary lookup, as Python `d[k]` / `d.get(k)`: first binding wins
(Python dicts cannot hold duplicate keys; the embedding only queries the
first occurrence). -/
def Json.lookup (kvs : List (String × Json)) (k : String) : Option Json :=
  (kvs.find? (fun kv => kv.1 = k)).map (·.2)

/-- Key membership, as Python `k in d`. -/
def Json.hasKey (kvs : List (String × Json)) (k : String) : Bool :=
  (kvs.find? (fun kv => kv.1 = k)).isSome

/-- Dict update `d[k] = v`: overwrites in place if the key exists (Python
keeps the original position), otherwise appends (Python appends new keys). -/
def Json.setKey : List (String × Json) → String → Json → List (String × Json)
  | [], k, v => [(k, v)]
  | (k1, v1) :: rest, k, v =>
    if k1 = k then (k1, v) :: rest else (k1, v1) :: Json.setKey rest k v

/-- Python truthiness for the Json shapes the programs test with `if x:`. -/
def Json.truthy : Json → Bool
  | .null => false
  | .bool b => b
  | .num n => n ≠ 0
  | .str s => s ≠ ""
  | .arr xs => xs ≠ []
  | .obj kvs => kvs ≠ []

/-- Lowercase hex digit. -/
def hexDigit (n : Nat) : Char :=
  if n < 10 then Char.ofNat (48 + n) else Char.ofNat (87 + n)

/-- Four lowercase hex digits, as in a Python json \uXXXX escape. -/
def hex4 (n : Nat) : List Char :=
  [hexDigit ((n >>> 12) % 16), hexDigit ((n >>> 8) % 16), hexDigit ((n >>> 4) % 16), hexDigit (n % 16)]

/-- Escape of one character inside a JSON string literal, matching Python
json.dumps: quote, backslash and the named control escapes, then \u00XX for
other control characters; with ensure_ascii, every code point above 0x7F is
escaped (surrogate pairs above 0xFFFF). -/
def pyEscapeChar (ensureAscii : Bool) (c : Char) : List Char :=
  let n := c.toNat
  if c = '"' then ['\\', '"']
  else if c = '\\' then ['\\', '\\']
  else if c = '\n' then ['\\', 'n']
  else if c = '\t' then ['\\', 't']
  else if c = '\r' then ['\\', 'r']
  else if n = 8 then ['\\', 'b']
  else if n = 12 then ['\\', 'f']
  else if n < 32 then '\\' :: 'u' :: hex4 n
  else if ensureAscii && n > 127 then
    if n < 65536 then '\\' :: 'u' :: hex4 n
    else
      let m := n - 65536
      ('\\' :: 'u' :: hex4 (0xD800 + (m >>> 10))) ++ ('\\' :: 'u' :: hex4 (0xDC00 + (m % 1024)))
  else [c]

/-- JSON string literal serialization. -/
def pySerStr (ensureAscii : Bool) (s : String) : String :=
  ⟨'"' :: (s.data.flatMap (pyEscapeChar ensureAscii)) ++ ['"']⟩

/-- Lexicographic code-point order on char lists, the order Python uses to
compare str values. -/
def charListLe : List Char → List Char → Bool
  | [], _ => true
  | _ :: _, [] => false
  | a :: as, b :: bs => if a < b then true else if b < a then false else charListLe as bs

/-- Python str comparison a <= b by code points. -/
def strLe (a b : String) : Bool := charListLe a.data b.data

/-- Insertion into a sorted list, keeping existing order among
not-greater elements (matches Python stable sorted for the unique keys the
programs produce). -/
def insertSorted {α : Type} (le : α → α → Bool) (x : α) : List α → List α
  | [] => [x]
  | y :: ys => if le y x then y :: insertSorted le x ys else x :: y :: ys

/-- Insertion sort by the given order. -/
def insertionSort {α : Type} (le : α → α → Bool) : List α → List α
  | [] => []
  | x :: xs => insertSorted le x (insertionSort le xs)

mutual

/-- Recursively sort object keys, as Python json.dumps(sort_keys=True) does at
every nesting level. Python sorts str keys lexicographically by code point,
here charListLe on the character lists. -/
def sortJson : Json → Json
  | .obj kvs => .obj (insertionSort (fun a b => strLe a.1 b.1) (sortKVs kvs))
  | .arr xs => .arr (sortArr xs)
  | other => other

/-- Pointwise sortJson over an array. -/
def sortArr : List Json → List Json
  | [] => []
  | x :: xs => sortJson x :: sortArr xs

/-- Pointwise sortJson over object values. -/
def sortKVs : List (String × Json) → List (String × Json)
  | [] => []
  | (k, v) :: rest => (k, sortJson v) :: sortKVs rest

end

mutual

/-- Serialization core of Python json.dumps for the given separators and
ensure_ascii flag (sort_keys is applied beforehand via sortJson). Ints print
as via repr, and booleans as true/false, as in Python. -/
def serJson (itemSep kvSep : String) (ea : Bool) : Json → String
  | .null => "null"
  | .bool true => "true"
  | .bool false => "false"
  | .num n => toString n
  | .str s => pySerStr ea s
  | .arr xs => "[" ++ serArr itemSep kvSep ea xs ++ "]"
  | .obj kvs => "\x7b" ++ serKVs itemSep kvSep ea kvs ++ "\x7d"

/-- Array elements joined by the item separator. -/
def serArr (itemSep kvSep : String) (ea : Bool) : List Json → String
  | [] => ""
  | [x] => serJson itemSep kvSep ea x
  | x :: y :: rest => serJson itemSep kvSep ea x ++ itemSep ++ serArr itemSep kvSep ea (y :: rest)

/-- Object entries key: value joined by the item separator. -/
def serKVs (itemSep kvSep : String) (ea : Bool) : List (String × Json) → String
  | [] => ""
  | [(k, v)] => pySerStr ea k ++ kvSep ++ serJson itemSep kvSep ea v
  | (k, v) :: e :: rest =>
    pySerStr ea k ++ kvSep ++ serJson itemSep kvSep ea v ++ itemSep ++ serKVs itemSep kvSep ea (e :: rest)

end

/-- Python json.dumps with default arguments: insertion-order keys,
separators (", ", ": "), ensure_ascii=True. Used by the gateway for payload
sizes and receipt file lines. -/
def pyDumps (j : Json) : String := serJson ", " ": " true j

/-- Python json.dumps(obj, sort_keys=True) with default separators and
ensure_ascii=True, as used by hash_args in csp_gateway/types.py. -/
def pyDumpsSorted (j : Json) : String := serJson ", " ": " true (sortJson j)

/-- UTF-8 bytes of one character. -/
def utf8Char (c : Char) : List Nat :=
  let n := c.toNat
  if n < 0x80 then [n]
  else if n < 0x800 then [0xC0 ||| (n >>> 6), 0x80 ||| (n &&& 0x3F)]
  else if n < 0x10000 then
    [0xE0 ||| (n >>> 12), 0x80 ||| ((n >>> 6) &&& 0x3F), 0x80 ||| (n &&& 0x3F)]
  else
    [0xF0 ||| (n >>> 18), 0x80 ||| ((n >>> 12) &&& 0x3F), 0x80 ||| ((n >>> 6) &&& 0x3F), 0x80 ||| (n &&& 0x3F)]

/-- UTF-8 encoding of a string, as Python str.encode("utf-8"). -/
def utf8Bytes (s : String) : List Nat := s.data.flatMap utf8Char

/-- Word size modulus for SHA-256 arithmetic. -/
def M32 : Nat := 4294967296

/-- 32-bit addition. -/
def add32 (a b : Nat) : Nat := (a + b) % M32

/-- 32-bit rotate right. -/
def rotr32 (n a : Nat) : Nat := ((a >>> n) ||| (a <<< (32 - n))) % M32

/-- Logical shift right. -/
def shr32 (n a : Nat) : Nat := a >>> n

/-- 32-bit complement of a value below 2^32. -/
def not32 (a : Nat) : Nat := 4294967295 - a

/-- SHA-256 round constants. -/
def shaK : List Nat :=
  [1116352408, 1899447441, 3049323471, 3921009573, 961987163, 1508970993,
   2453635748, 2870763221, 3624381080, 310598401, 607225278, 1426881987,
   1925078388, 2162078206, 2614888103, 3248222580, 3835390401, 4022224774,
   264347078, 604807628, 770255983, 1249150122, 1555081692, 1996064986,
   2554220882, 2821834349, 2952996808, 3210313671, 3336571891, 3584528711,
   113926993, 338241895, 666307205, 773529912, 1294757372, 1396182291,
   1695183700, 1986661051, 2177026350, 2456956037, 2730485921, 2820302411,
   3259730800, 3345764771, 3516065817, 3600352804, 4094571909, 275423344,
   430227734, 506948616, 659060556, 883997877, 958139571, 1322822218,
   1537002063, 1747873779, 1955562222, 2024104815, 2227730452, 2361852424,
   2428436474, 2756734187, 3204031479, 3329325298]

/-- SHA-256 initial hash state. -/
def shaH0 : List Nat :=
  [1779033703, 3144134277, 1013904242, 2773480762, 1359893119, 2600822924,
   528734635, 1541459225]

/-- SHA-256 message padding: 0x80, zeros to 56 mod 64, 8-byte big-endian bit
length. -/
def shaPad (msg : List Nat) : List Nat :=
  let len := msg.length
  let bitLen := len * 8
  let zeros := (55 + 64 - len % 64) % 64
  msg ++ [0x80] ++ List.replicate zeros 0 ++
    [(bitLen >>> 56) % 256, (bitLen >>> 48) % 256, (bitLen >>> 40) % 256, (bitLen >>> 32) % 256,
     (bitLen >>> 24) % 256, (bitLen >>> 16) % 256, (bitLen >>> 8) % 256, bitLen % 256]

/-- Big-endian 4-byte grouping into words. -/
def bytesToWords : List Nat → List Nat
  | b0 :: b1 :: b2 :: b3 :: rest =>
    (((b0 <<< 24) ||| (b1 <<< 16)) ||| ((b2 <<< 8) ||| b3)) :: bytesToWords rest
  | _ => []

/-- 16-word block grouping (structural, so that kernel reduction works). -/
def wordChunks : List Nat → List (List Nat)
  | w0 :: w1 :: w2 :: w3 :: w4 :: w5 :: w6 :: w7 ::
    w8 :: w9 :: w10 :: w11 :: w12 :: w13 :: w14 :: w15 :: rest =>
    [w0, w1, w2, w3, w4, w5, w6, w7, w8, w9, w10, w11, w12, w13, w14, w15] :: wordChunks rest
  | _ => []

/-- SHA-256 sigma0. -/
def smallSigma0 (x : Nat) : Nat := (rotr32 7 x) ^^^ (rotr32 18 x) ^^^ (shr32 3 x)

/-- SHA-256 sigma1. -/
def smallSigma1 (x : Nat) : Nat := (rotr32 17 x) ^^^ (rotr32 19 x) ^^^ (shr32 10 x)

/-- SHA-256 Sigma0. -/
def bigSigma0 (x : Nat) : Nat := (rotr32 2 x) ^^^ (rotr32 13 x) ^^^ (rotr32 22 x)

/-- SHA-256 Sigma1. -/
def bigSigma1 (x : Nat) : Nat := (rotr32 6 x) ^^^ (rotr32 11 x) ^^^ (rotr32 25 x)

/-- Message schedule extension from 16 to 64 words. -/
def extendSchedule (ws : List Nat) : Nat → List Nat
  | 0 => ws
  | r + 1 =>
    let n := ws.length
    let w := add32 (add32 (smallSigma1 (ws.getD (n - 2) 0)) (ws.getD (n - 7) 0))
                   (add32 (smallSigma0 (ws.getD (n - 15) 0)) (ws.getD (n - 16) 0))
    extendSchedule (ws ++ [w]) r

/-- One SHA-256 round on the 8-word working state. -/
def roundStep (st : List Nat) (wk : Nat × Nat) : List Nat :=
  match st with
  | [a, b, c, d, e, f, g, h] =>
    let ch := (e &&& f) ^^^ ((not32 e) &&& g)
    let maj := (a &&& b) ^^^ (a &&& c) ^^^ (b &&& c)
    let t1 := add32 (add32 h (bigSigma1 e)) (add32 ch (add32 wk.2 wk.1))
    let t2 := add32 (bigSigma0 a) maj
    [add32 t1 t2, a, b, c, add32 d t1, e, f, g]
  | other => other

/-- SHA-256 block compression. -/
def processBlock (st : List Nat) (block : List Nat) : List Nat :=
  let w := extendSchedule block 48
  let final := (w.zip shaK).foldl roundStep st
  (st.zip final).map (fun p => add32 p.1 p.2)

/-- Two lowercase hex chars of a byte. -/
def byteToHex (b : Nat) : List Char := [hexDigit (b / 16), hexDigit (b % 16)]

/-- Big-endian bytes of a 32-bit word. -/
def wordToBytes (w : Nat) : List Nat := [(w >>> 24) % 256, (w >>> 16) % 256, (w >>> 8) % 256, w % 256]

/-- SHA-256 digest as raw bytes. -/
def sha256Bytes (msg : List Nat) : List Nat :=
  let blocks := wordChunks (bytesToWords (shaPad msg))
  (blocks.foldl processBlock shaH0).flatMap wordToBytes

/-- SHA-256 digest as a lowercase hex string, as Python hashlib hexdigest. -/
def sha256hex (msg : List Nat) : String :=
  ⟨(sha256Bytes msg).flatMap byteToHex⟩

/-- Base64 alphabet lookup. -/
def b64Char (n : Nat) : Char :=
  if n < 26 then Char.ofNat (65 + n)
  else if n < 52 then Char.ofNat (97 + (n - 26))
  else if n < 62 then Char.ofNat (48 + (n - 52))
  else if n = 62 then '+'
  else '/'

/-- Base64 encoding of a byte list, with = padding, as Python
base64.b64encode. -/
def b64Encode : List Nat → String
  | b0 :: b1 :: b2 :: rest =>
    ⟨[b64Char (b0 >>> 2), b64Char (((b0 &&& 3) <<< 4) ||| (b1 >>> 4)),
      b64Char (((b1 &&& 15) <<< 2) ||| (b2 >>> 6)), b64Char (b2 &&& 63)]⟩ ++ b64Encode rest
  | [b0, b1] =>
    ⟨[b64Char (b0 >>> 2), b64Char (((b0 &&& 3) <<< 4) ||| (b1 >>> 4)),
      b64Char ((b1 &&& 15) <<< 2), '=']⟩
  | [b0] => ⟨[b64Char (b0 >>> 2), b64Char ((b0 &&& 3) <<< 4), '=', '=']⟩
  | [] => ""

/-- Inverse base64 alphabet. -/
def b64DecChar (c : Char) : Option Nat :=
  let n := c.toNat
  if 65 ≤ n && n ≤ 90 then some (n - 65)
  else if 97 ≤ n && n ≤ 122 then some (n - 97 + 26)
  else if 48 ≤ n && n ≤ 57 then some (n - 48 + 52)
  else if c = '+' then some 62
  else if c = '/' then some 63
  else none

/-- Base64 decoding (4-char groups, = padding only at the end), as Python
base64.b64decode; none models the binascii error on malformed input. -/
def b64DecodeChars : List Char → Option (List Nat)
  | [] => some []
  | [c0, c1, '=', '='] =>
    match b64DecChar c0, b64DecChar c1 with
    | some n0, some n1 => some [(n0 <<< 2) ||| (n1 >>> 4)]
    | _, _ => none
  | [c0, c1, c2, '='] =>
    match b64DecChar c0, b64DecChar c1, b64DecChar c2 with
    | some n0, some n1, some n2 =>
      some [(n0 <<< 2) ||| (n1 >>> 4), ((n1 &&& 15) <<< 4) ||| (n2 >>> 2)]
    | _, _, _ => none
  | c0 :: c1 :: c2 :: c3 :: rest =>
    match b64DecChar c0, b64DecChar c1, b64DecChar c2, b64DecChar c3, b64DecodeChars rest with
    | some n0, some n1, some n2, some n3, some bs =>
      some ([(n0 <<< 2) ||| (n1 >>> 4), ((n1 &&& 15) <<< 4) ||| (n2 >>> 2),
             ((n2 &&& 3) <<< 6) ||| n3] ++ bs)
    | _, _, _, _, _ => none
  | _ => none

/-- Base64 decoding of a string. -/
def b64Decode (s : String) : Option (List Nat) := b64DecodeChars s.data

/-- Receipt dictionaries, matching the Python annotation list[dict]: a JSON
object given as its key-value list. -/
abbrev RDict := List (String × Json)

namespace CryptoCore

/-- Embeds jcs_canonicalize (crypto_core.py): json.dumps with separators
(",", ":"), sort_keys=True, ensure_ascii=False. -/
def jcs_canonicalize (obj : Json) : String := serJson "," ":" false (sortJson obj)

/-- Embeds canonical_hash (crypto_core.py): drop the excluded top-level
fields when the object is a dict and exclude_fields is truthy, canonicalize,
SHA-256, prefix sha256:. An empty exclude list models both None and []. -/
def canonical_hash (obj : Json) (exclude_fields : List String) : String :=
  let obj' := match obj with
    | .obj kvs =>
      if exclude_fields.isEmpty then obj
      else Json.obj (kvs.filter (fun kv => !(exclude_fields.contains kv.1)))
    | other => other
  "sha256:" ++ sha256hex (utf8Bytes (jcs_canonicalize obj'))

/-- Embeds KeyPair (crypto_core.py); keys are raw byte lists. The created_at
timestamp is threaded explicitly (datetime.now in Python). -/
structure KeyPair where
  key_id : String
  private_key : Option (List Nat) := none
  public_key : Option (List Nat) := none
  created_at : String := ""

/-- Embeds Signature (crypto_core.py). -/
structure Signature where
  alg : String := "Ed25519"
  key_id : String := ""
  sig : String := ""
  deriving Repr, DecidableEq

/-- Embeds Signature.to_dict. -/
def Signature.toDict (s : Signature) : Json :=
  .obj [("alg", .str s.alg), ("key_id", .str s.key_id), ("sig", .str s.sig)]

/-- Embeds Signature.from_dict: read alg, key_id, sig with defaults. The
system only ever stores strings in these slots; non-string values fall back
to the defaults here (in Python they would flow through as objects). -/
def Signature.fromDict (d : Json) : Signature :=
  match d with
  | .obj kvs =>
    { alg := match Json.lookup kvs "alg" with | some (.str s) => s | _ => "Ed25519"
      key_id := match Json.lookup kvs "key_id" with | some (.str s) => s | _ => ""
      sig := match Json.lookup kvs "sig" with | some (.str s) => s | _ => "" }
  | _ => {}

/-- Embeds sign_receipt (crypto_core.py) in the environment without the
cryptography library (HAS_CRYPTO = False, the fallback the module itself
provides): the signature bytes are the SHA-256 digest of
SIMULATED_SIG:hash:key_id, base64-encoded. none models the ValueError on a
receipt without receipt_hash; a non-string receipt_hash is outside the
modelled domain (the system only stores the hash string there). -/
def sign_receipt (receipt : RDict) (kp : KeyPair) : Option RDict :=
  match Json.lookup receipt "receipt_hash" with
  | some (.str h) =>
    let sigBytes := sha256Bytes (utf8Bytes ("SIMULATED_SIG:" ++ h ++ ":" ++ kp.key_id))
    let s : Signature := { alg := "Ed25519", key_id := kp.key_id, sig := b64Encode sigBytes }
    some (Json.setKey receipt "signature" s.toDict)
  | _ => none

/-- Embeds verify_signature (crypto_core.py), simulated branch: recompute the
simulated digest from the stored receipt_hash string and the signature's
key_id and compare with the base64-decoded stored signature. Returns false
when signature or receipt_hash is missing, or when the stored hash is not a
string (Python would format the object into the digest input instead). -/
def verify_signature (receipt : RDict) (_public_key : List Nat) : Bool :=
  if !(Json.hasKey receipt "signature") then false
  else if !(Json.hasKey receipt "receipt_hash") then false
  else
    let s := Signature.fromDict ((Json.lookup receipt "signature").getD .null)
    match Json.lookup receipt "receipt_hash" with
    | some (.str h) =>
      let expected := sha256Bytes (utf8Bytes ("SIMULATED_SIG:" ++ h ++ ":" ++ s.key_id))
      b64Decode s.sig == some expected
    | _ => false

/-- Embeds create_receipt (crypto_core.py). receipt_id and ts are the values
uuid.uuid4() and datetime.now() would produce, passed explicitly; the
parent_hashes default None becomes the empty list. The dict literal order and
the late insertion of receipt_hash (after hashing with receipt_hash and
signature excluded) follow the source; the getD branch is dead because the
hash key is always present and a string at the point of signing. -/
def create_receipt (receipt_id ts : String) (receipt_type : String) (payload : Json)
    (parent_hashes : List String) (proof_tier : String) (keypair : Option KeyPair) : RDict :=
  let receipt : RDict :=
    [("receipt_id", .str receipt_id),
     ("receipt_type", .str receipt_type),
     ("ts", .str ts),
     ("payload", payload),
     ("parent_hashes", .arr (parent_hashes.map .str)),
     ("proof_tier", .str proof_tier),
     ("schema_version", .str "crs/0.1")]
  let h := canonical_hash (.obj receipt) ["receipt_hash", "signature"]
  let withHash := Json.setKey receipt "receipt_hash" (.str h)
  match keypair with
  | some kp =>
    if proof_tier = "core" ∨ proof_tier = "court" then (sign_receipt withHash kp).getD withHash
    else withHash
  | none => withHash

/-- Structured verification errors. Python builds formatted message strings;
the embedding keeps the same information as constructors. -/
inductive VError where
  | missingReceiptHash : VError
  | hashMismatch (expected : String) (got : Json) : VError
  | missingParents (missing : List Json) : VError
  | invalidSignature (key_id : String) : VError
  | unknownKey (key_id : String) : VError
  deriving Repr, DecidableEq

/-- Embeds VerificationResult (crypto_core.py). receipt_id keeps the raw
looked-up value (Python also stores whatever the dict holds). -/
structure VerificationResult where
  receipt_id : Json
  hash_valid : Bool
  signature_valid : Option Bool := none
  chain_valid : Option Bool := none
  errors : List VError := []
  deriving Repr, DecidableEq

/-- Embeds VerificationResult.is_valid. -/
def VerificationResult.is_valid (r : VerificationResult) : Bool :=
  if !r.hash_valid then false
  else if r.signature_valid == some false then false
  else if r.chain_valid == some false then false
  else true

/-- Embeds verify_receipt_hash (crypto_core.py). -/
def verify_receipt_hash (receipt : RDict) : VerificationResult :=
  let rid := (Json.lookup receipt "receipt_id").getD (.str "unknown")
  if !(Json.hasKey receipt "receipt_hash") then
    { receipt_id := rid, hash_valid := false, errors := [.missingReceiptHash] }
  else
    let expected := canonical_hash (.obj receipt) ["receipt_hash", "signature"]
    if Json.lookup receipt "receipt_hash" = some (.str expected) then
      { receipt_id := rid, hash_valid := true }
    else
      { receipt_id := rid, hash_valid := false,
        errors := [.hashMismatch expected ((Json.lookup receipt "receipt_hash").getD .null)] }

/-- Iteration of receipt.get("parent_hashes", []) as Python would run it:
lists yield their elements, strings their characters (one-char strings) and
dicts their keys; absent or falsy values yield nothing. Truthy
non-iterables (numbers, True) would raise TypeError in Python and are
outside the modelled domain. -/
def parentsOf (receipt : RDict) : List Json :=
  match Json.lookup receipt "parent_hashes" with
  | some (.arr xs) => xs
  | some (.str s) => s.data.map (fun c => Json.str (String.singleton c))
  | some (.obj kvs) => kvs.map (fun kv => Json.str kv.1)
  | _ => []

/-- One iteration of the verify_chain loop body for a receipt, given the
known_hashes set accumulated so far (verify hash, then parent links, then
the optional signature check). -/
def chainStep (known : List Json) (receipt : RDict)
    (public_keys : Option (List (String × List Nat))) : VerificationResult :=
  let r0 := verify_receipt_hash receipt
  let parents := parentsOf receipt
  let r1 :=
    if parents.isEmpty then r0
    else
      let missing := parents.filter (fun h => !(known.contains h))
      if !missing.isEmpty then
        { r0 with chain_valid := some false, errors := r0.errors ++ [.missingParents missing] }
      else
        { r0 with chain_valid := some true }
  let pks : List (String × List Nat) := match public_keys with | some l => l | none => []
  if Json.hasKey receipt "signature" && !pks.isEmpty then
    let s := Signature.fromDict ((Json.lookup receipt "signature").getD .null)
    match (pks.find? (fun kv => kv.1 = s.key_id)).map (·.2) with
    | some pkBytes =>
      let ok := verify_signature receipt pkBytes
      if !ok then
        { r1 with signature_valid := some ok, errors := r1.errors ++ [.invalidSignature s.key_id] }
      else
        { r1 with signature_valid := some ok }
    | none =>
      { r1 with signature_valid := none, errors := r1.errors ++ [.unknownKey s.key_id] }
  else r1

/-- Recursion of verify_chain over the receipt list, threading known_hashes:
a receipt's hash joins the set only when its hash verified as valid. -/
def verifyChainGo (public_keys : Option (List (String × List Nat)))
    (known : List Json) : List RDict → List VerificationResult
  | [] => []
  | r :: rest =>
    let res := chainStep known r public_keys
    res :: verifyChainGo public_keys
      (if res.hash_valid then known ++ [(Json.lookup r "receipt_hash").getD .null] else known) rest

/-- Embeds verify_chain (crypto_core.py). -/
def verify_chain (receipts : List RDict)
    (public_keys : Option (List (String × List Nat))) : List VerificationResult :=
  verifyChainGo public_keys [] receipts

/-- Known-hash set accumulated by verify_chain after a list of receipts,
starting from a given set: exactly the receipt_hash values of the receipts
whose hash verified as valid. -/
def chainKnownFrom (known : List Json) : List RDict → List Json
  | [] => known
  | r :: rest =>
    chainKnownFrom
      (if (verify_receipt_hash r).hash_valid
       then known ++ [(Json.lookup r "receipt_hash").getD .null] else known) rest

end CryptoCore

namespace ToolSafety

/-- Regex abstract syntax sufficient for the classifier patterns of
tool_safety.py: character classes, sequencing, alternation, star over a
character class (the only quantified subjects in those patterns), word
boundary, end anchor and negative lookahead. -/
inductive Rx where
  | eps : Rx
  | cls (p : Char → Bool) : Rx
  | seq (a b : Rx) : Rx
  | alt (a b : Rx) : Rx
  | starCls (p : Char → Bool) : Rx
  | bound : Rx
  | endAnchor : Rx
  | negLook (a : Rx) : Rx

/-- Python re word character over the ASCII range the demo commands use. -/
def isWordChar (x : Char) : Bool :=
  (('a' ≤ x && x ≤ 'z') || ('A' ≤ x && x ≤ 'Z')) || (x.isDigit || x = '_')

/-- Python re whitespace class over ASCII. -/
def isSpaceChar (x : Char) : Bool :=
  x = ' ' || x = '\t' || x = '\n' || x = '\r' || x = '\x0b' || x = '\x0c'

/-- Case-insensitive single character, for re.IGNORECASE. -/
def ciChar (c : Char) (x : Char) : Bool := x.toLower = c.toLower

/-- ASCII letter class [a-zA-Z]. -/
def isAlphaChar (x : Char) : Bool := ('a' ≤ x && x ≤ 'z') || ('A' ≤ x && x ≤ 'Z')

/-- Negated class [^v\s] under IGNORECASE: neither v nor V nor whitespace. -/
def notVS (x : Char) : Bool := !(x = 'v' || x = 'V' || isSpaceChar x)

/-- Dot: any character except newline. -/
def anyChar (x : Char) : Bool := x ≠ '\n'

/-- Optional group r? sugar. -/
def Rx.opt (a : Rx) : Rx := .alt .eps a

/-- One-or-more of a character class (c+ sugar). -/
def Rx.plusCls (p : Char → Bool) : Rx := .seq (.cls p) (.starCls p)

/-- Case-insensitive literal string. -/
def Rx.lit (s : String) : Rx := s.data.foldr (fun c acc => Rx.seq (.cls (ciChar c)) acc) .eps

/-- Sequence of several regexes. -/
def Rx.seqs (l : List Rx) : Rx := l.foldr Rx.seq .eps

/-- Word-boundary test at a position (out-of-range counts as non-word). -/
def wordBoundary (s : Array Char) (i : Nat) : Bool :=
  let before := if h : i - 1 < s.size then (if i = 0 then false else isWordChar (s.get ⟨i - 1, h⟩)) else false
  let here := if h : i < s.size then isWordChar (s.get ⟨i, h⟩) else false
  before != here

/-- Python end-of-pattern $ in default mode: end of string, or just before a
final newline. -/
def atEnd (s : Array Char) (i : Nat) : Bool :=
  i = s.size || (i + 1 = s.size && s.get? i == some '\n')

/-- End positions reachable by zero or more repetitions of a character class
starting at i (fuel-driven so that the kernel can evaluate it). -/
def starClsRun (s : Array Char) (p : Char → Bool) : Nat → Nat → List Nat
  | i, 0 => [i]
  | i, fuel + 1 =>
    i :: (if h : i < s.size then
            (if p (s.get ⟨i, h⟩) then starClsRun s p (i + 1) fuel else [])
          else [])

/-- Thompson-style matcher: the set of end positions of matches of the regex
starting at position i. Agrees with Python backtracking on match existence,
which is all re.search is used for in classify. -/
def runRx (s : Array Char) : Rx → Nat → List Nat
  | .eps, i => [i]
  | .cls p, i => if h : i < s.size then (if p (s.get ⟨i, h⟩) then [i + 1] else []) else []
  | .seq a b, i => (((runRx s a i).map (runRx s b)).flatten).dedup
  | .alt a b, i => (runRx s a i ++ runRx s b i).dedup
  | .starCls p, i => starClsRun s p i (s.size + 1)
  | .bound, i => if wordBoundary s i then [i] else []
  | .endAnchor, i => if atEnd s i then [i] else []
  | .negLook a, i => if (runRx s a i).isEmpty then [i] else []

/-- Embeds re.search(pattern, s): a match may begin at any position. -/
def rxSearch (pattern : Rx) (s : String) : Bool :=
  let arr := s.data.toArray
  (List.range (arr.size + 1)).any (fun i => !(runRx arr pattern i).isEmpty)

/-- Python str.strip() over the ASCII whitespace the demo uses. -/
def pyStrip (s : String) : String :=
  ⟨((s.data.dropWhile isSpaceChar).reverse.dropWhile isSpaceChar).reverse⟩

/-- Embeds CRITICAL_PATTERNS (tool_safety.py), each paired with its Python
source text so classify can report which pattern matched. -/
def CRITICAL_PATTERNS : List (String × Rx) :=
  [("rm\\s+(-[a-zA-Z]*)?r[a-zA-Z]*f[a-zA-Z]*\\s+/\\s*$",
    .seqs [.lit "rm", .plusCls isSpaceChar, .opt (.seq (.cls (ciChar '-')) (.starCls isAlphaChar)),
           .cls (ciChar 'r'), .starCls isAlphaChar, .cls (ciChar 'f'), .starCls isAlphaChar,
           .plusCls isSpaceChar, .cls (ciChar '/'), .starCls isSpaceChar, .endAnchor]),
   ("rm\\s+(-[a-zA-Z]*)?r[a-zA-Z]*f[a-zA-Z]*\\s+~\\s*$",
    .seqs [.lit "rm", .plusCls isSpaceChar, .opt (.seq (.cls (ciChar '-')) (.starCls isAlphaChar)),
           .cls (ciChar 'r'), .starCls isAlphaChar, .cls (ciChar 'f'), .starCls isAlphaChar,
           .plusCls isSpaceChar, .cls (ciChar '~'), .starCls isSpaceChar, .endAnchor]),
   ("rm\\s+(-[a-zA-Z]*)?r[a-zA-Z]*f[a-zA-Z]*\\s+/[^v\\s]",
    .seqs [.lit "rm", .plusCls isSpaceChar, .opt (.seq (.cls (ciChar '-')) (.starCls isAlphaChar)),
           .cls (ciChar 'r'), .starCls isAlphaChar, .cls (ciChar 'f'), .starCls isAlphaChar,
           .plusCls isSpaceChar, .cls (ciChar '/'), .cls notVS]),
   ("\\bDROP\\s+DATABASE\\b",
    .seqs [.bound, .lit "DROP", .plusCls isSpaceChar, .lit "DATABASE", .bound]),
   ("\\bDROP\\s+TABLE\\b",
    .seqs [.bound, .lit "DROP", .plusCls isSpaceChar, .lit "TABLE", .bound]),
   ("\\bmkfs\\b|\\bfdisk\\b",
    .alt (.seqs [.bound, .lit "mkfs", .bound]) (.seqs [.bound, .lit "fdisk", .bound])),
   ("\\bdd\\s+if=/dev/zero\\b",
    .seqs [.bound, .lit "dd", .plusCls isSpaceChar, .lit "if=/dev/zero", .bound]),
   ("\\b(curl|wget)\\b.*\\|\\s*(ba)?sh\\b",
    .seqs [.bound, .alt (.lit "curl") (.lit "wget"), .bound, .starCls anyChar,
           .cls (ciChar '|'), .starCls isSpaceChar, .opt (.lit "ba"), .lit "sh", .bound]),
   ("\\bchmod\\s+.*-R\\s+.*777\\s+/\\s*$",
    .seqs [.bound, .lit "chmod", .plusCls isSpaceChar, .starCls anyChar, .lit "-R",
           .plusCls isSpaceChar, .starCls anyChar, .lit "777", .plusCls isSpaceChar,
           .cls (ciChar '/'), .starCls isSpaceChar, .endAnchor])]

/-- Embeds HIGH_PATTERNS (tool_safety.py). -/
def HIGH_PATTERNS : List (String × Rx) :=
  [("\\brm\\s+(-[a-zA-Z]*)?r[a-zA-Z]*f",
    .seqs [.bound, .lit "rm", .plusCls isSpaceChar,
           .opt (.seq (.cls (ciChar '-')) (.starCls isAlphaChar)),
           .cls (ciChar 'r'), .starCls isAlphaChar, .cls (ciChar 'f')]),
   ("\\bgit\\s+push\\s+.*--force\\b",
    .seqs [.bound, .lit "git", .plusCls isSpaceChar, .lit "push", .plusCls isSpaceChar,
           .starCls anyChar, .lit "--force", .bound]),
   ("\\bgit\\s+reset\\s+--hard\\b",
    .seqs [.bound, .lit "git", .plusCls isSpaceChar, .lit "reset", .plusCls isSpaceChar,
           .lit "--hard", .bound]),
   ("\\bDELETE\\s+FROM\\b(?!.*\\bWHERE\\b)",
    .seqs [.bound, .lit "DELETE", .plusCls isSpaceChar, .lit "FROM", .bound,
           .negLook (.seqs [.starCls anyChar, .bound, .lit "WHERE", .bound])]),
   ("\\bTRUNCATE\\s+TABLE\\b",
    .seqs [.bound, .lit "TRUNCATE", .plusCls isSpaceChar, .lit "TABLE", .bound]),
   ("\\brsync\\b.*--delete\\b",
    .seqs [.bound, .lit "rsync", .bound, .starCls anyChar, .lit "--delete", .bound])]

/-- Embeds classify (tool_safety.py): strip, try every CRITICAL pattern in
order, then every HIGH pattern in order, first match wins and is reported;
otherwise MEDIUM for the recognized tool kinds shell, db, http, else LOW. -/
def classify (tool : String) (command : String) : String × Option String :=
  let s := pyStrip command
  match CRITICAL_PATTERNS.find? (fun pr => rxSearch pr.2 s) with
  | some pr => ("CRITICAL", some pr.1)
  | none =>
    match HIGH_PATTERNS.find? (fun pr => rxSearch pr.2 s) with
    | some pr => ("HIGH", some pr.1)
    | none =>
      if tool = "shell" ∨ tool = "db" ∨ tool = "http" then ("MEDIUM", none)
      else ("LOW", none)

end ToolSafety

/-- Generic assoc-list lookup for Python dicts with non-Json values. -/
def dictGet {α β : Type} [DecidableEq α] (l : List (α × β)) (k : α) : Option β :=
  (l.find? (fun kv => decide (kv.1 = k))).map (·.2)

/-- Generic assoc-list update for Python dict assignment: overwrite in place
or append a new key at the end. -/
def dictSet {α β : Type} [DecidableEq α] : List (α × β) → α → β → List (α × β)
  | [], k, v => [(k, v)]
  | (k1, v1) :: rest, k, v =>
    if k1 = k then (k1, v) :: rest else (k1, v1) :: dictSet rest k v

/-- Python set.update for membership-only sets kept as lists. -/
def setAdd (s : List String) (xs : List String) : List String :=
  xs.foldl (fun acc x => if acc.contains x then acc else acc ++ [x]) s

/-- Python set.difference_update. -/
def setRemove (s : List String) (xs : List String) : List String :=
  s.filter (fun x => !(xs.contains x))

/-- List-prefix test used to implement the Python substring operator. -/
def isPrefixList {α : Type} [DecidableEq α] : List α → List α → Bool
  | [], _ => true
  | _ :: _, [] => false
  | a :: as, b :: bs => a = b && isPrefixList as bs

/-- Python substring operator needle in haystack. -/
def strContains (hay needle : String) : Bool := go needle.data hay.data where
  go (n : List Char) : List Char → Bool
    | [] => n.isEmpty
    | c :: t => isPrefixList n (c :: t) || go n t

namespace Gateway

/-- Embeds TrustLevel (csp_gateway/types.py). -/
inductive TrustLevel where
  | internal | verified | community | unknown
  deriving DecidableEq, Repr

/-- String value of a TrustLevel, as the Python str enum. -/
def TrustLevel.value : TrustLevel → String
  | .internal => "internal"
  | .verified => "verified"
  | .community => "community"
  | .unknown => "unknown"

/-- Embeds RiskCategory (csp_gateway/types.py). -/
inductive RiskCategory where
  | LOW | MEDIUM | HIGH | CRITICAL
  deriving DecidableEq, Repr

/-- String value of a RiskCategory. -/
def RiskCategory.value : RiskCategory → String
  | .LOW => "LOW"
  | .MEDIUM => "MEDIUM"
  | .HIGH => "HIGH"
  | .CRITICAL => "CRITICAL"

/-- Embeds DecisionResult (csp_gateway/types.py). -/
inductive DecisionResult where
  | allow | deny | require_approval
  deriving DecidableEq, Repr

/-- String value of a DecisionResult. -/
def DecisionResult.value : DecisionResult → String
  | .allow => "allow"
  | .deny => "deny"
  | .require_approval => "require_approval"

/-- Embeds TokenMode (csp_gateway/types.py). -/
inductive TokenMode where
  | exchanged | vault | blocked | none
  deriving DecidableEq, Repr

/-- String value of a TokenMode. -/
def TokenMode.value : TokenMode → String
  | .exchanged => "exchanged"
  | .vault => "vault"
  | .blocked => "blocked"
  | .none => "none"

/-- Embeds ReasonCode (csp_gateway/types.py), the closed reason-code
enumeration. -/
inductive ReasonCode where
  | ALLOW_POLICY_MATCH
  | DENY_NO_AUTHN
  | DENY_INVALID_TOKEN
  | DENY_NO_PERMISSION
  | DENY_TOOL_NOT_FOUND
  | DENY_NO_MATCHING_RULE
  | DENY_UNKNOWN_FIELDS
  | DENY_PAYLOAD_TOO_LARGE
  | DENY_PATH_TRAVERSAL
  | DENY_RATE_LIMIT
  | DENY_KILL_SWITCH
  | DENY_PASSTHROUGH_BLOCKED
  | DENY_OAUTH_REDIRECT_INVALID
  | DENY_OAUTH_CLIENT_UNAPPROVED
  | REQUIRE_APPROVAL
  deriving DecidableEq, Repr

/-- String value of a ReasonCode (identical to the constructor name). -/
def ReasonCode.value : ReasonCode → String
  | .ALLOW_POLICY_MATCH => "ALLOW_POLICY_MATCH"
  | .DENY_NO_AUTHN => "DENY_NO_AUTHN"
  | .DENY_INVALID_TOKEN => "DENY_INVALID_TOKEN"
  | .DENY_NO_PERMISSION => "DENY_NO_PERMISSION"
  | .DENY_TOOL_NOT_FOUND => "DENY_TOOL_NOT_FOUND"
  | .DENY_NO_MATCHING_RULE => "DENY_NO_MATCHING_RULE"
  | .DENY_UNKNOWN_FIELDS => "DENY_UNKNOWN_FIELDS"
  | .DENY_PAYLOAD_TOO_LARGE => "DENY_PAYLOAD_TOO_LARGE"
  | .DENY_PATH_TRAVERSAL => "DENY_PATH_TRAVERSAL"
  | .DENY_RATE_LIMIT => "DENY_RATE_LIMIT"
  | .DENY_KILL_SWITCH => "DENY_KILL_SWITCH"
  | .DENY_PASSTHROUGH_BLOCKED => "DENY_PASSTHROUGH_BLOCKED"
  | .DENY_OAUTH_REDIRECT_INVALID => "DENY_OAUTH_REDIRECT_INVALID"
  | .DENY_OAUTH_CLIENT_UNAPPROVED => "DENY_OAUTH_CLIENT_UNAPPROVED"
  | .REQUIRE_APPROVAL => "REQUIRE_APPROVAL"

/-- Embeds Principal (csp_gateway/types.py); actor_type is the literal
string user / agent / system. -/
structure Principal where
  sub : String
  actor_type : String
  client_id : Option String := Option.none
  org_id : Option String := Option.none
  deriving DecidableEq, Repr

/-- Json encoding of an optional string: Python None becomes JSON null. -/
def optStr : Option String → Json
  | Option.none => .null
  | Option.some s => .str s

/-- Embeds Principal.to_dict. -/
def Principal.to_dict (p : Principal) : Json :=
  .obj [("sub", .str p.sub), ("actor_type", .str p.actor_type),
        ("client_id", optStr p.client_id), ("org_id", optStr p.org_id)]

/-- Embeds ToolEntry (csp_gateway/types.py). -/
structure ToolEntry where
  server_id : String
  tool_name : String
  trust_level : TrustLevel
  risk_category : RiskCategory
  schema : Option Json := Option.none
  version : Option String := Option.none
  deriving DecidableEq, Repr

/-- Embeds Decision (csp_gateway/types.py). -/
structure Decision where
  result : DecisionResult
  reason_codes : List ReasonCode := []
  policy_id : Option String := Option.none
  deriving DecidableEq, Repr

/-- Embeds Decision.to_dict. -/
def Decision.to_dict (d : Decision) : Json :=
  .obj [("result", .str d.result.value),
        ("reason_codes", .arr (d.reason_codes.map (fun rc => .str rc.value))),
        ("policy_id", optStr d.policy_id)]

/-- Embeds TokenHandling (csp_gateway/types.py). -/
structure TokenHandling where
  mode : TokenMode
  passthrough_detected : Bool := false
  audience : Option String := Option.none
  deriving DecidableEq, Repr

/-- Embeds TokenHandling.to_dict. -/
def TokenHandling.to_dict (t : TokenHandling) : Json :=
  .obj [("mode", .str t.mode.value),
        ("passthrough_detected", .bool t.passthrough_detected),
        ("audience", optStr t.audience)]

/-- Embeds Receipt (csp_gateway/types.py). -/
structure Receipt where
  receipt_id : String
  trace_id : String
  ts : String
  principal : Principal
  mcp_method : String
  decision : Decision
  token_handling : TokenHandling
  server_id : Option String := Option.none
  tool_name : Option String := Option.none
  trust_level : Option TrustLevel := Option.none
  args_hash : Option String := Option.none
  size_bytes_in : Option Nat := Option.none
  sandbox_fs_policy : Option String := Option.none
  sandbox_net_policy : Option String := Option.none
  outcome_status : Option String := Option.none
  deriving DecidableEq, Repr

/-- Embeds Receipt.create: uuid4 and the current timestamp are derived from
the fresh counter threaded through the gateway state (one call consumes two
fresh values: the receipt id and, when no trace id is given, the trace id). -/
def Receipt.create (fresh : Nat) (principal : Principal) (mcp_method : String)
    (decision : Decision) (token_handling : TokenHandling) (trace_id : Option String)
    (tool_name server_id : Option String) (args_hash : Option String)
    (size_bytes_in : Option Nat) (sandbox_fs_policy sandbox_net_policy : Option String) : Receipt :=
  { receipt_id := "uuid-" ++ toString fresh
    trace_id := trace_id.getD ("uuid-" ++ toString (fresh + 1))
    ts := "ts-" ++ toString fresh
    principal := principal
    mcp_method := mcp_method
    decision := decision
    token_handling := token_handling
    server_id := server_id
    tool_name := tool_name
    args_hash := args_hash
    size_bytes_in := size_bytes_in
    sandbox_fs_policy := sandbox_fs_policy
    sandbox_net_policy := sandbox_net_policy }

/-- Embeds Receipt.to_dict. -/
def Receipt.to_dict (r : Receipt) : Json :=
  .obj [("ts", .str r.ts),
        ("receipt_id", .str r.receipt_id),
        ("trace_id", .str r.trace_id),
        ("principal", r.principal.to_dict),
        ("mcp", .obj [("method", .str r.mcp_method), ("server_id", optStr r.server_id),
                      ("tool_name", optStr r.tool_name),
                      ("trust_level", match r.trust_level with
                                      | Option.some t => .str t.value
                                      | Option.none => .null)]),
        ("request", .obj [("args_hash", optStr r.args_hash),
                          ("size_bytes_in", match r.size_bytes_in with
                                            | Option.some n => .num n
                                            | Option.none => .null)]),
        ("decision", r.decision.to_dict),
        ("token_handling", r.token_handling.to_dict),
        ("sandbox", .obj [("fs_policy", optStr r.sandbox_fs_policy),
                          ("net_policy", optStr r.sandbox_net_policy)])]

/-- Embeds hash_args (csp_gateway/types.py): sha256 hexdigest of
json.dumps(args, sort_keys=True) in UTF-8. -/
def hash_args (args : Json) : String := sha256hex (utf8Bytes (pyDumpsSorted args))

/-- Embeds ToolRegistry (csp_gateway/registry.py); the tools dict is keyed by
(server_id, tool_name) and iterates in insertion order. -/
structure ToolRegistry where
  tools : List ((String × String) × ToolEntry) := []
  trust_config : List (String × TrustLevel) := []
  risk_patterns : List (String × RiskCategory) := []

/-- Embeds ToolRegistry.configure_trust. -/
def ToolRegistry.configure_trust (reg : ToolRegistry) (server_id : String)
    (trust_level : TrustLevel) : ToolRegistry :=
  { reg with trust_config := dictSet reg.trust_config server_id trust_level }

/-- Embeds ToolRegistry.configure_risk. -/
def ToolRegistry.configure_risk (reg : ToolRegistry) (tool_pattern : String)
    (risk_category : RiskCategory) : ToolRegistry :=
  { reg with risk_patterns := dictSet reg.risk_patterns tool_pattern risk_category }

/-- Embeds ToolRegistry._classify_risk: configured substring patterns first
in insertion order, then the built-in substring families ordered
CRITICAL, HIGH, MEDIUM, LOW. -/
def ToolRegistry.classify_risk (reg : ToolRegistry) (tool_name : String) : RiskCategory :=
  let lower : String := ⟨tool_name.data.map Char.toLower⟩
  match reg.risk_patterns.find? (fun pr => strContains lower pr.1) with
  | Option.some pr => pr.2
  | Option.none =>
    if ["delete", "rm", "drop", "truncate", "exec", "shell"].any (fun p => strContains lower p) then .CRITICAL
    else if ["write", "update", "modify", "create"].any (fun p => strContains lower p) then .HIGH
    else if ["read", "get", "list", "query"].any (fun p => strContains lower p) then .MEDIUM
    else .LOW

/-- Embeds ToolRegistry.register. -/
def ToolRegistry.register (reg : ToolRegistry) (server_id tool_name : String)
    (schema : Option Json) : ToolRegistry × ToolEntry :=
  let trust_level := (dictGet reg.trust_config server_id).getD .unknown
  let risk_category := reg.classify_risk tool_name
  let entry : ToolEntry :=
    { server_id := server_id, tool_name := tool_name, trust_level := trust_level,
      risk_category := risk_category, schema := schema }
  ({ reg with tools := dictSet reg.tools (server_id, tool_name) entry }, entry)

/-- Embeds ToolRegistry.list_all: dict values in insertion order. -/
def ToolRegistry.list_all (reg : ToolRegistry) : List ToolEntry := reg.tools.map (·.2)

/-- Claims dict of a test token, modelled by the four keys the authenticator
reads; all-absent models the empty (falsy) dict. -/
structure Claims where
  sub : Option String := Option.none
  actor_type : Option String := Option.none
  client_id : Option String := Option.none
  org_id : Option String := Option.none
  deriving DecidableEq, Repr

/-- Python truthiness of the claims dict in the modelled projection. -/
def Claims.truthy (c : Claims) : Bool :=
  c.sub.isSome || c.actor_type.isSome || c.client_id.isSome || c.org_id.isSome

/-- Embeds AuthnResult (csp_gateway/authn.py). -/
structure AuthnResult where
  authenticated : Bool
  principal : Option Principal := Option.none
  error : Option String := Option.none
  deriving DecidableEq, Repr

/-- Embeds Authenticator (csp_gateway/authn.py). -/
structure Authenticator where
  valid_tokens : List (String × Claims) := []

/-- Embeds Authenticator.add_valid_token. -/
def Authenticator.add_valid_token (a : Authenticator) (token : String) (claims : Claims) :
    Authenticator :=
  { a with valid_tokens := dictSet a.valid_tokens token claims }

/-- Embeds Authenticator.authenticate: missing or empty token fails, an
optional Bearer prefix is stripped, the claims lookup must hit a truthy
claims dict, and the principal is built with the sub and actor_type
defaults. -/
def Authenticator.authenticate (a : Authenticator) (token : Option String) : AuthnResult :=
  match token with
  | Option.none => { authenticated := false, error := Option.some "Missing authentication token" }
  | Option.some t =>
    if t = "" then { authenticated := false, error := Option.some "Missing authentication token" }
    else
      let t2 := if isPrefixList "Bearer ".data t.data then t.drop 7 else t
      match dictGet a.valid_tokens t2 with
      | Option.none => { authenticated := false, error := Option.some "Invalid authentication token" }
      | Option.some claims =>
        if claims.truthy then
          { authenticated := true
            principal := Option.some
              { sub := claims.sub.getD "unknown"
                actor_type := claims.actor_type.getD "user"
                client_id := claims.client_id
                org_id := claims.org_id } }
        else { authenticated := false, error := Option.some "Invalid authentication token" }

/-- Embeds Authenticator.deny_no_authn. -/
def deny_no_authn : Decision :=
  { result := .deny, reason_codes := [.DENY_NO_AUTHN] }

end Gateway

namespace Gateway

/-- Embeds Permission (csp_gateway/authz.py); the tool sets are kept as
membership lists. -/
structure Permission where
  principal_sub : String
  allowed_tools : List String := []
  denied_tools : List String := []
  max_risk : RiskCategory := .HIGH
  deriving DecidableEq, Repr

/-- Embeds PolicyEngine state (csp_gateway/authz.py). The registry the
engine shares by reference with the gateway is passed explicitly to the
functions that read it. -/
structure PolicyEngine where
  permissions : List (String × Permission) := []
  kill_switch_tools : List String := []

/-- Embeds PolicyEngine.grant: ensure a Permission record exists, extend
allowed_tools, and overwrite max_risk with this call's argument (the Python
default HIGH is supplied explicitly by callers that omit it). -/
def PolicyEngine.grant (pe : PolicyEngine) (principal_sub : String) (tools : List String)
    (max_risk : RiskCategory) : PolicyEngine :=
  let perm := (dictGet pe.permissions principal_sub).getD { principal_sub := principal_sub }
  let perm' := { perm with allowed_tools := setAdd perm.allowed_tools tools, max_risk := max_risk }
  { pe with permissions := dictSet pe.permissions principal_sub perm' }

/-- Embeds PolicyEngine.deny. -/
def PolicyEngine.deny (pe : PolicyEngine) (principal_sub : String) (tools : List String) :
    PolicyEngine :=
  let perm := (dictGet pe.permissions principal_sub).getD { principal_sub := principal_sub }
  let perm' := { perm with denied_tools := setAdd perm.denied_tools tools }
  { pe with permissions := dictSet pe.permissions principal_sub perm' }

/-- Embeds PolicyEngine.activate_kill_switch. -/
def PolicyEngine.activate_kill_switch (pe : PolicyEngine) (tool_names : List String) :
    PolicyEngine :=
  { pe with kill_switch_tools := setAdd pe.kill_switch_tools tool_names }

/-- Embeds PolicyEngine.deactivate_kill_switch. -/
def PolicyEngine.deactivate_kill_switch (pe : PolicyEngine) (tool_names : List String) :
    PolicyEngine :=
  { pe with kill_switch_tools := setRemove pe.kill_switch_tools tool_names }

/-- Embeds PolicyEngine.can_discover. -/
def PolicyEngine.can_discover (pe : PolicyEngine) (principal : Principal) (tool : ToolEntry) :
    Bool :=
  match dictGet pe.permissions principal.sub with
  | Option.none => false
  | Option.some perm =>
    if perm.denied_tools.contains tool.tool_name then false
    else if !(perm.allowed_tools.contains tool.tool_name) then false
    else true

/-- Embeds PolicyEngine.filter_tools_list. -/
def PolicyEngine.filter_tools_list (pe : PolicyEngine) (principal : Principal)
    (tools : List ToolEntry) : List ToolEntry :=
  tools.filter (fun t => pe.can_discover principal t)

/-- Position of a risk category in risk_order = [LOW, MEDIUM, HIGH,
CRITICAL], as list.index in evaluate. -/
def riskIndex : RiskCategory → Nat
  | .LOW => 0
  | .MEDIUM => 1
  | .HIGH => 2
  | .CRITICAL => 3

/-- Embeds PolicyEngine.evaluate: kill switch, tool existence (first
registry entry with the tool name), permission existence, explicit denial,
allowance, then the risk ceiling; arguments are accepted and ignored as in
the source. -/
def PolicyEngine.evaluate (pe : PolicyEngine) (registry : ToolRegistry)
    (principal : Principal) (tool_name : String) (_arguments : Option Json) : Decision :=
  if pe.kill_switch_tools.contains tool_name then
    { result := .deny, reason_codes := [.DENY_KILL_SWITCH] }
  else
    match registry.list_all.find? (fun t => t.tool_name = tool_name) with
    | Option.none => { result := .deny, reason_codes := [.DENY_TOOL_NOT_FOUND] }
    | Option.some tool =>
      match dictGet pe.permissions principal.sub with
      | Option.none => { result := .deny, reason_codes := [.DENY_NO_MATCHING_RULE] }
      | Option.some perm =>
        if perm.denied_tools.contains tool_name then
          { result := .deny, reason_codes := [.DENY_NO_PERMISSION] }
        else if !(perm.allowed_tools.contains tool_name) then
          { result := .deny, reason_codes := [.DENY_NO_MATCHING_RULE] }
        else if riskIndex tool.risk_category > riskIndex perm.max_risk then
          { result := .require_approval, reason_codes := [.REQUIRE_APPROVAL] }
        else
          { result := .allow, reason_codes := [.ALLOW_POLICY_MATCH] }

/-- Embeds UpstreamCredential (csp_gateway/credentials.py). -/
structure UpstreamCredential where
  token : Option String
  mode : TokenMode
  audience : Option String := Option.none
  deriving DecidableEq, Repr

/-- Exchange configuration entry, the dict with audience and scope stored by
configure_exchange. -/
structure ExchangeCfg where
  audience : String
  scope : Option String := Option.none
  deriving DecidableEq, Repr

/-- Embeds CredentialBroker state (csp_gateway/credentials.py). -/
structure CredentialBroker where
  vault : List (String × String) := []
  exchange_config : List (String × ExchangeCfg) := []
  passthrough_blocked : Bool := true

/-- Embeds CredentialBroker.configure_vault. -/
def CredentialBroker.configure_vault (cb : CredentialBroker) (server_id secret : String) :
    CredentialBroker :=
  { cb with vault := dictSet cb.vault server_id secret }

/-- Embeds CredentialBroker.configure_exchange. -/
def CredentialBroker.configure_exchange (cb : CredentialBroker) (server_id audience : String)
    (scope : Option String) : CredentialBroker :=
  { cb with exchange_config := dictSet cb.exchange_config server_id { audience := audience, scope := scope } }

/-- Embeds CredentialBroker.allow_passthrough. -/
def CredentialBroker.allow_passthrough (cb : CredentialBroker) (allow : Bool) : CredentialBroker :=
  { cb with passthrough_blocked := !allow }

/-- Embeds CredentialBroker.get_upstream_credential: vault first, then the
simulated token exchange (exchanged:server:first-8-chars-of-token...), and
otherwise passthrough detection, blocked by default. -/
def CredentialBroker.get_upstream_credential (cb : CredentialBroker)
    (client_token target_server : String) : Option UpstreamCredential × TokenHandling :=
  match dictGet cb.vault target_server with
  | Option.some secret =>
    (Option.some { token := Option.some secret, mode := .vault, audience := Option.some target_server },
     { mode := .vault, passthrough_detected := false, audience := Option.some target_server })
  | Option.none =>
    match dictGet cb.exchange_config target_server with
    | Option.some config =>
      let exchanged_token := "exchanged:" ++ target_server ++ ":" ++ client_token.take 8 ++ "..."
      (Option.some { token := Option.some exchanged_token, mode := .exchanged,
                     audience := Option.some config.audience },
       { mode := .exchanged, passthrough_detected := false, audience := Option.some config.audience })
    | Option.none =>
      if cb.passthrough_blocked then
        (Option.none, { mode := .blocked, passthrough_detected := true })
      else
        (Option.none, { mode := .none, passthrough_detected := true })

/-- Embeds CredentialBroker.deny_passthrough. -/
def deny_passthrough : Decision :=
  { result := .deny, reason_codes := [.DENY_PASSTHROUGH_BLOCKED] }

/-- Embeds ValidationResult (preflight.py). -/
structure ValidationResult where
  valid : Bool
  reason_codes : List ReasonCode
  deriving DecidableEq, Repr

/-- Embeds PreflightValidator state (preflight.py). The filesystem-dependent
containment test Path.resolve + is_relative_to of _is_within_workspace is
carried as the oracle within; workspaceSet models whether _workspace is
None. -/
structure PreflightValidator where
  max_payload_bytes : Nat := 1000000
  workspaceSet : Bool := true
  within : String → Bool
  schemas : List (String × Json) := []
  file_tools : List String := ["fs_read", "fs_write", "fs_delete", "file_read", "file_write"]

/-- Embeds PreflightValidator.register_schema. -/
def PreflightValidator.register_schema (pv : PreflightValidator) (tool_name : String)
    (schema : Json) : PreflightValidator :=
  { pv with schemas := dictSet pv.schemas tool_name schema }

/-- Known-field set of a registered schema: schema.get("properties",
empty-dict).keys(); a non-dict properties value would raise in Python and is
outside the modelled domain. -/
def schemaKnownFields (schema : Json) : List String :=
  match schema with
  | .obj skvs =>
    match Json.lookup skvs "properties" with
    | Option.some (.obj props) => props.map (·.1)
    | _ => []
  | _ => []

/-- The value selected by arguments.get("path") or arguments.get("file_path"):
the path value when it is truthy, otherwise the file_path value. -/
def chosenPathArg (args : RDict) : Option Json :=
  match Json.lookup args "path" with
  | Option.some v => if v.truthy then Option.some v else Json.lookup args "file_path"
  | Option.none => Json.lookup args "file_path"

/-- Path argument for the containment check: the chosen value when it is a
truthy string (the check runs only for a truthy path argument). A truthy
non-string chosen value makes Python raise instead of reaching the check;
that abort is characterized by PreflightValidator.validate_raises below. -/
def pathArgOf (args : RDict) : Option String :=
  match chosenPathArg args with
  | Option.some (.str s) => if s = "" then Option.none else Option.some s
  | _ => Option.none

/-- Embeds the uncaught error path of PreflightValidator.validate: for a
file tool with a workspace configured, a truthy non-string path/file_path
argument flows into Path(), which raises TypeError; the except clause of
_is_within_workspace catches only ValueError and OSError, so the exception
propagates out of validate (and out of handle_tools_call) with no Decision
produced and no receipt emitted. validate's value below models the Python
result only when this predicate is false. -/
def PreflightValidator.validate_raises (pv : PreflightValidator) (tool_name : String)
    (arguments : RDict) : Bool :=
  pv.file_tools.contains tool_name && pv.workspaceSet &&
    (match chosenPathArg arguments with
     | Option.some (.str _) => false
     | Option.some v => v.truthy
     | Option.none => false)

/-- Embeds PreflightValidator.validate on its non-raising domain (see
validate_raises): payload size, unknown fields (one code at the first
unknown key), and path traversal for file tools, all collected into one
result. The json.dumps TypeError branch cannot fire on Json-typed
arguments. -/
def PreflightValidator.validate (pv : PreflightValidator) (tool_name : String)
    (arguments : RDict) : ValidationResult :=
  let sizeCodes : List ReasonCode :=
    if (pyDumps (.obj arguments)).length > pv.max_payload_bytes then [.DENY_PAYLOAD_TOO_LARGE] else []
  let schemaCodes : List ReasonCode :=
    match dictGet pv.schemas tool_name with
    | Option.some schema =>
      let known := schemaKnownFields schema
      if arguments.any (fun kv => !(known.contains kv.1)) then [.DENY_UNKNOWN_FIELDS] else []
    | Option.none => []
  let pathCodes : List ReasonCode :=
    if pv.file_tools.contains tool_name && pv.workspaceSet then
      match pathArgOf arguments with
      | Option.some p => if !(pv.within p) then [.DENY_PATH_TRAVERSAL] else []
      | Option.none => []
    else []
  let codes := sizeCodes ++ schemaCodes ++ pathCodes
  { valid := codes.isEmpty, reason_codes := codes }

/-- Embeds PreflightValidator.to_decision. -/
def PreflightValidator.to_decision (_pv : PreflightValidator) (result : ValidationResult) :
    Decision :=
  if result.valid then { result := .allow }
  else { result := .deny, reason_codes := result.reason_codes }

/-- Embeds IncidentEvent (incident.py). -/
structure IncidentEvent where
  ts : String
  action : String
  target : String
  actor : String
  deriving DecidableEq, Repr

/-- Embeds IncidentController state (incident.py); the listener fan-out is
modelled separately (ListenerModel section) because listeners can raise. -/
structure IncidentController where
  kill_switch_tools : List String := []
  quarantined_sessions : List String := []
  revoked_principals : List String := []
  events : List IncidentEvent := []

/-- Embeds IncidentController._emit_event (timestamp passed explicitly for
datetime.now). -/
def IncidentController.emit_event (ic : IncidentController) (ts action target actor : String) :
    IncidentController :=
  { ic with events := ic.events ++ [{ ts := ts, action := action, target := target, actor := actor }] }

/-- Embeds IncidentController.activate_kill_switch. -/
def IncidentController.activate_kill_switch (ic : IncidentController) (ts : String)
    (tool_names : List String) (actor : String) : IncidentController :=
  ({ ic with kill_switch_tools := setAdd ic.kill_switch_tools tool_names }).emit_event
    ts "kill_switch_activated" (String.intercalate "," tool_names) actor

/-- Embeds IncidentController.deactivate_kill_switch. -/
def IncidentController.deactivate_kill_switch (ic : IncidentController) (ts : String)
    (tool_names : List String) (actor : String) : IncidentController :=
  ({ ic with kill_switch_tools := setRemove ic.kill_switch_tools tool_names }).emit_event
    ts "kill_switch_deactivated" (String.intercalate "," tool_names) actor

/-- Embeds IncidentController.is_killed. -/
def IncidentController.is_killed (ic : IncidentController) (tool_name : String) : Bool :=
  ic.kill_switch_tools.contains tool_name

/-- Embeds IncidentController.is_quarantined. -/
def IncidentController.is_quarantined (ic : IncidentController) (session_id : String) : Bool :=
  ic.quarantined_sessions.contains session_id

/-- Embeds IncidentController.revoke_principal. -/
def IncidentController.revoke_principal (ic : IncidentController) (ts : String)
    (principal_sub : String) (actor : String) : IncidentController :=
  ({ ic with revoked_principals := setAdd ic.revoked_principals [principal_sub] }).emit_event
    ts "principal_revoked" principal_sub actor

/-- Embeds IncidentController.is_revoked. -/
def IncidentController.is_revoked (ic : IncidentController) (principal : Principal) : Bool :=
  ic.revoked_principals.contains principal.sub

/-- Embeds SandboxConfig (sandbox.py), the part the gateway reads. -/
structure SandboxConfig where
  workspace : String
  network_allowlist : List String := []
  read_only : Bool := false
  drop_capabilities : Bool := true

/-- Embeds SandboxExecutor.fs_policy. -/
def SandboxConfig.fs_policy (c : SandboxConfig) : String :=
  if c.read_only then "read_only" else "workspace_only"

/-- Embeds SandboxExecutor.net_policy. -/
def SandboxConfig.net_policy (c : SandboxConfig) : String :=
  if !c.network_allowlist.isEmpty then "allowlist" else "block_all"

end Gateway

namespace Gateway

/-- Embeds ReceiptEmitter state (csp_gateway/receipts.py) for the gateway
pipeline: the in-memory store and the optional output file (modelled as its
list of written lines). Listener fan-out, which can raise, is modelled in
the ListenerModel section; the pipeline theorems describe executions in
which no listener raises. -/
structure ReceiptEmitter where
  output_path : Bool := false
  receipts : List Receipt := []
  fileLines : List String := []

/-- Embeds ReceiptEmitter.emit: build the receipt (args hash and size only
for truthy arguments), append it to the store, then append the json.dumps
line to the output file when one is configured, and return the receipt. -/
def ReceiptEmitter.emit (em : ReceiptEmitter) (fresh : Nat) (principal : Principal)
    (mcp_method : String) (decision : Decision) (token_handling : TokenHandling)
    (trace_id tool_name server_id : Option String) (arguments : Option RDict)
    (sandbox_fs sandbox_net : Option String) : ReceiptEmitter × Receipt :=
  let argsT : Option RDict :=
    match arguments with
    | Option.some l => if l.isEmpty then Option.none else Option.some l
    | Option.none => Option.none
  let receipt := Receipt.create fresh principal mcp_method decision token_handling trace_id
    tool_name server_id (argsT.map (fun l => hash_args (.obj l)))
    (argsT.map (fun l => (pyDumps (.obj l)).length)) sandbox_fs sandbox_net
  let em' :=
    { em with
      receipts := em.receipts ++ [receipt]
      fileLines := if em.output_path then em.fileLines ++ [pyDumps receipt.to_dict]
                   else em.fileLines }
  (em', receipt)

/-- Pipeline stages of handle_tools_call, in source order; a stage is
recorded when the corresponding check is evaluated. -/
inductive Stage where
  | authn | revocation | authz | preflight | credentials
  deriving DecidableEq, Repr

/-- Principal used to receipt authentication failures. -/
def anonymousPrincipal : Principal := { sub := "anonymous", actor_type := "user" }

/-- Embeds MCPGateway state (csp_gateway/gateway.py): the components the
constructor builds, plus the fresh counter for uuid/timestamp values. -/
structure MCPGateway where
  registry : ToolRegistry := {}
  authn : Authenticator := {}
  authz : PolicyEngine := {}
  credentials : CredentialBroker := {}
  preflight : PreflightValidator
  sandbox : SandboxConfig
  incident : IncidentController := {}
  receipts : ReceiptEmitter := {}
  fresh : Nat := 0

/-- Embeds MCPGateway.handle_tools_list: authenticate (receipting failures
under the anonymous principal), filter the registry by permissions, emit
exactly one receipt and return it. The stage list records the checks that
ran. -/
def MCPGateway.handle_tools_list (gw : MCPGateway) (token trace_id : Option String) :
    MCPGateway × (Option (List ToolEntry) × Decision × Receipt) × List Stage :=
  let ar := gw.authn.authenticate token
  if !ar.authenticated then
    let decision := deny_no_authn
    let (em, receipt) := gw.receipts.emit gw.fresh anonymousPrincipal "tools/list" decision
      { mode := .none, passthrough_detected := false } trace_id Option.none Option.none
      Option.none Option.none Option.none
    ({ gw with receipts := em, fresh := gw.fresh + 2 }, (Option.none, decision, receipt), [.authn])
  else
    let principal := ar.principal.getD anonymousPrincipal
    let visible := gw.authz.filter_tools_list principal gw.registry.list_all
    let decision : Decision := { result := .allow, reason_codes := [.ALLOW_POLICY_MATCH] }
    let (em, receipt) := gw.receipts.emit gw.fresh principal "tools/list" decision
      { mode := .none, passthrough_detected := false } trace_id Option.none Option.none
      Option.none Option.none Option.none
    ({ gw with receipts := em, fresh := gw.fresh + 2 }, (Option.some visible, decision, receipt), [.authn])

/-- Embeds MCPGateway.handle_tools_call: authenticate, incident revocation
check, authorize, preflight, broker credentials when a server is named (the
source's `if server_id:` is Python truthiness, so both None and the empty
string skip the broker), and emit exactly one receipt at the terminating
stage. The stage list records the checks that ran, in source order. This
value models the normal return; the input region where Python instead
raises an uncaught TypeError out of preflight validation (emitting no
receipt at all) is characterized by MCPGateway.handle_tools_call_raises
below. -/
def MCPGateway.handle_tools_call (gw : MCPGateway) (token : Option String) (tool_name : String)
    (arguments : RDict) (server_id trace_id : Option String) :
    MCPGateway × (Decision × Receipt) × List Stage :=
  let ar := gw.authn.authenticate token
  if !ar.authenticated then
    let decision := deny_no_authn
    let (em, receipt) := gw.receipts.emit gw.fresh anonymousPrincipal "tools/call" decision
      { mode := .none, passthrough_detected := false } trace_id (Option.some tool_name) server_id
      (Option.some arguments) Option.none Option.none
    ({ gw with receipts := em, fresh := gw.fresh + 2 }, (decision, receipt), [.authn])
  else
    let principal := ar.principal.getD anonymousPrincipal
    if gw.incident.is_revoked principal then
      let decision : Decision := { result := .deny, reason_codes := [.DENY_KILL_SWITCH] }
      let (em, receipt) := gw.receipts.emit gw.fresh principal "tools/call" decision
        { mode := .blocked, passthrough_detected := false } trace_id (Option.some tool_name)
        server_id (Option.some arguments) Option.none Option.none
      ({ gw with receipts := em, fresh := gw.fresh + 2 }, (decision, receipt), [.authn, .revocation])
    else
      let authz_decision := gw.authz.evaluate gw.registry principal tool_name
        (Option.some (.obj arguments))
      if authz_decision.result ≠ .allow then
        let (em, receipt) := gw.receipts.emit gw.fresh principal "tools/call" authz_decision
          { mode := .none, passthrough_detected := false } trace_id (Option.some tool_name)
          server_id (Option.some arguments) Option.none Option.none
        ({ gw with receipts := em, fresh := gw.fresh + 2 }, (authz_decision, receipt),
         [.authn, .revocation, .authz])
      else
        let validation := gw.preflight.validate tool_name arguments
        if !validation.valid then
          let decision := gw.preflight.to_decision validation
          let (em, receipt) := gw.receipts.emit gw.fresh principal "tools/call" decision
            { mode := .none, passthrough_detected := false } trace_id (Option.some tool_name)
            server_id (Option.some arguments) Option.none Option.none
          ({ gw with receipts := em, fresh := gw.fresh + 2 }, (decision, receipt),
           [.authn, .revocation, .authz, .preflight])
        else
          match server_id with
          | Option.some sid =>
            if sid = "" then
              let token_handling : TokenHandling := { mode := .none, passthrough_detected := false }
              let decision : Decision := { result := .allow, reason_codes := [.ALLOW_POLICY_MATCH] }
              let (em, receipt) := gw.receipts.emit gw.fresh principal "tools/call" decision
                token_handling trace_id (Option.some tool_name) server_id
                (Option.some arguments) (Option.some gw.sandbox.fs_policy)
                (Option.some gw.sandbox.net_policy)
              ({ gw with receipts := em, fresh := gw.fresh + 2 }, (decision, receipt),
               [.authn, .revocation, .authz, .preflight])
            else
              let (_credential, token_handling) :=
                gw.credentials.get_upstream_credential (token.getD "") sid
              if token_handling.passthrough_detected then
                let decision := deny_passthrough
                let (em, receipt) := gw.receipts.emit gw.fresh principal "tools/call" decision
                  token_handling trace_id (Option.some tool_name) server_id
                  (Option.some arguments) Option.none Option.none
                ({ gw with receipts := em, fresh := gw.fresh + 2 }, (decision, receipt),
                 [.authn, .revocation, .authz, .preflight, .credentials])
              else
                let decision : Decision := { result := .allow, reason_codes := [.ALLOW_POLICY_MATCH] }
                let (em, receipt) := gw.receipts.emit gw.fresh principal "tools/call" decision
                  token_handling trace_id (Option.some tool_name) server_id
                  (Option.some arguments) (Option.some gw.sandbox.fs_policy)
                  (Option.some gw.sandbox.net_policy)
                ({ gw with receipts := em, fresh := gw.fresh + 2 }, (decision, receipt),
                 [.authn, .revocation, .authz, .preflight, .credentials])
          | Option.none =>
            let token_handling : TokenHandling := { mode := .none, passthrough_detected := false }
            let decision : Decision := { result := .allow, reason_codes := [.ALLOW_POLICY_MATCH] }
            let (em, receipt) := gw.receipts.emit gw.fresh principal "tools/call" decision
              token_handling trace_id (Option.some tool_name) server_id
              (Option.some arguments) (Option.some gw.sandbox.fs_policy)
              (Option.some gw.sandbox.net_policy)
            ({ gw with receipts := em, fresh := gw.fresh + 2 }, (decision, receipt),
             [.authn, .revocation, .authz, .preflight])

/-- Embeds the uncaught error path of MCPGateway.handle_tools_call: the
pipeline reaches preflight validation (authenticated, not revoked,
authorization allowed) and validate raises the uncaught TypeError of a
truthy non-string path argument (see PreflightValidator.validate_raises).
On this region the Python call aborts with the exception: no Decision is
returned and no receipt is appended to the emitter store. -/
def MCPGateway.handle_tools_call_raises (gw : MCPGateway) (token : Option String)
    (tool_name : String) (arguments : RDict) : Bool :=
  let ar := gw.authn.authenticate token
  if !ar.authenticated then false
  else
    let principal := ar.principal.getD anonymousPrincipal
    if gw.incident.is_revoked principal then false
    else
      let authz_decision := gw.authz.evaluate gw.registry principal tool_name
        (Option.some (.obj arguments))
      if authz_decision.result ≠ .allow then false
      else gw.preflight.validate_raises tool_name arguments

end Gateway

namespace ListenerModel

open Gateway

/-- ReceiptEmitter with its registered listeners (receipts.py). A listener
is modelled by whether it returns normally (true) or raises (false); other
listener effects live outside the modelled state. -/
structure LReceiptEmitter where
  output_path : Bool := false
  receipts : List Receipt := []
  fileLines : List String := []
  listeners : List (Receipt → Bool) := []

/-- Embeds ReceiptEmitter.emit including the listener loop, which the source
runs after appending to the store and before the output-file write, with no
exception handling: when any listener raises, the store keeps the receipt
but the file write never runs and emit does not return (the none result). -/
def LReceiptEmitter.emit (em : LReceiptEmitter) (fresh : Nat) (principal : Principal)
    (mcp_method : String) (decision : Decision) (token_handling : TokenHandling)
    (trace_id tool_name server_id : Option String) (arguments : Option RDict)
    (sandbox_fs sandbox_net : Option String) : LReceiptEmitter × Option Receipt :=
  let argsT : Option RDict :=
    match arguments with
    | Option.some l => if l.isEmpty then Option.none else Option.some l
    | Option.none => Option.none
  let receipt := Receipt.create fresh principal mcp_method decision token_handling trace_id
    tool_name server_id (argsT.map (fun l => hash_args (.obj l)))
    (argsT.map (fun l => (pyDumps (.obj l)).length)) sandbox_fs sandbox_net
  let em1 := { em with receipts := em.receipts ++ [receipt] }
  if em.listeners.all (fun l => l receipt) then
    let em2 :=
      { em1 with fileLines := if em1.output_path then em1.fileLines ++ [pyDumps receipt.to_dict]
                              else em1.fileLines }
    (em2, Option.some receipt)
  else
    (em1, Option.none)

/-- IncidentController with its registered listeners (incident.py), a
listener again modelled by whether it returns normally. -/
structure LIncidentController where
  kill_switch_tools : List String := []
  quarantined_sessions : List String := []
  revoked_principals : List String := []
  events : List IncidentEvent := []
  listeners : List (IncidentEvent → Bool) := []

/-- Embeds IncidentController._emit_event: append the event, then notify
listeners in registration order with no exception handling; the Bool records
whether the call returned normally. -/
def LIncidentController.emit_event (ic : LIncidentController) (ts action target actor : String) :
    LIncidentController × Bool :=
  let event : IncidentEvent := { ts := ts, action := action, target := target, actor := actor }
  ({ ic with events := ic.events ++ [event] }, ic.listeners.all (fun l => l event))

/-- Embeds IncidentController.activate_kill_switch with listener fan-out:
the set mutation precedes the event emission, so it survives a raising
listener. -/
def LIncidentController.activate_kill_switch (ic : LIncidentController) (ts : String)
    (tool_names : List String) (actor : String) : LIncidentController × Bool :=
  ({ ic with kill_switch_tools := setAdd ic.kill_switch_tools tool_names }).emit_event
    ts "kill_switch_activated" (String.intercalate "," tool_names) actor

end ListenerModel

section HelperLemmas

/-- Membership in a Python-style set after set.update. -/
theorem mem_setAdd : ∀ (xs s : List String) (y : String), y ∈ setAdd s xs ↔ y ∈ s ∨ y ∈ xs
  | [], s, y => by simp [setAdd]
  | x :: xs, s, y => by
    have hstep : setAdd s (x :: xs) = setAdd (if s.contains x then s else s ++ [x]) xs := rfl
    rw [hstep]
    by_cases hc : s.contains x = true
    · have ih := mem_setAdd xs s y
      have hx : x ∈ s := List.elem_iff.mp hc
      rw [if_pos hc, ih, List.mem_cons]
      constructor
      · rintro (h | h)
        · exact Or.inl h
        · exact Or.inr (Or.inr h)
      · rintro (h | h | h)
        · exact Or.inl h
        · exact Or.inl (h ▸ hx)
        · exact Or.inr h
    · have ih := mem_setAdd xs (s ++ [x]) y
      rw [if_neg hc, ih, List.mem_append, List.mem_singleton, List.mem_cons]
      tauto

/-- Membership after set.difference_update. -/
theorem mem_setRemove (s xs : List String) (y : String) :
    y ∈ setRemove s xs ↔ y ∈ s ∧ ¬ y ∈ xs := by
  simp [setRemove, List.mem_filter, List.elem_iff]

/-- contains as membership for string lists. -/
theorem contains_iff_mem (l : List String) (y : String) : l.contains y = true ↔ y ∈ l :=
  List.elem_iff

/-- dictGet after dictSet at the same key. -/
theorem dictGet_dictSet_self {α β : Type} [DecidableEq α] :
    ∀ (l : List (α × β)) (k : α) (v : β), dictGet (dictSet l k v) k = Option.some v
  | [], k, v => by simp [dictGet, dictSet, List.find?]
  | (k1, v1) :: rest, k, v => by
    by_cases h : k1 = k
    · simp [dictGet, dictSet, h, List.find?]
    · simp only [dictSet, if_neg h]
      have ih := dictGet_dictSet_self rest k v
      simp only [dictGet, List.find?] at ih ⊢
      simp [h, ih]

/-- dictGet after dictSet at a different key. -/
theorem dictGet_dictSet_ne {α β : Type} [DecidableEq α] :
    ∀ (l : List (α × β)) (k k' : α) (v : β), k ≠ k' →
      dictGet (dictSet l k v) k' = dictGet l k'
  | [], k, k', v, h => by simp [dictGet, dictSet, List.find?, h]
  | (k1, v1) :: rest, k, k', v, h => by
    by_cases h1 : k1 = k
    · simp only [dictSet, if_pos h1]
      by_cases h2 : k1 = k'
      · exact absurd (h2 ▸ h1.symm) (h1 ▸ h)
      · simp [dictGet, List.find?, h2]
    · simp only [dictSet, if_neg h1]
      have ih := dictGet_dictSet_ne rest k k' v h
      by_cases h2 : k1 = k'
      · simp [dictGet, List.find?, h2]
      · simp only [dictGet, List.find?] at ih ⊢
        simp [h2, ih]

end HelperLemmas

open ToolSafety in
/-- C7: the classifier tries every CRITICAL pattern before any HIGH pattern
and the first match wins: a stripped command matching any CRITICAL pattern
classifies CRITICAL; matching no CRITICAL but some HIGH pattern classifies
HIGH; matching none yields MEDIUM for the recognized kinds shell, db, http
and LOW otherwise. The four quoted invocations evaluate as the claim
states. -/
theorem c7_classifier_precedence :
    ((classify "shell" "rm -rf /").1 = "CRITICAL" ∧
     (classify "shell" "rm -rf /var/cache/old/*").1 = "HIGH" ∧
     ((classify "db" "DELETE FROM users WHERE id=1").1 = "LOW" ∨
      (classify "db" "DELETE FROM users WHERE id=1").1 = "MEDIUM") ∧
     (classify "db" "DELETE FROM users").1 = "HIGH") ∧
    (∀ tool command : String,
      ((∃ pr ∈ CRITICAL_PATTERNS, rxSearch pr.2 (pyStrip command) = true) →
        (classify tool command).1 = "CRITICAL") ∧
      ((∀ pr ∈ CRITICAL_PATTERNS, rxSearch pr.2 (pyStrip command) = false) →
       (∃ pr ∈ HIGH_PATTERNS, rxSearch pr.2 (pyStrip command) = true) →
        (classify tool command).1 = "HIGH") ∧
      ((∀ pr ∈ CRITICAL_PATTERNS, rxSearch pr.2 (pyStrip command) = false) →
       (∀ pr ∈ HIGH_PATTERNS, rxSearch pr.2 (pyStrip command) = false) →
        classify tool command =
          (if tool = "shell" ∨ tool = "db" ∨ tool = "http"
           then ("MEDIUM", Option.none) else ("LOW", Option.none)))) := by
  constructor
  · exact ⟨by decide, by decide, Or.inr (by decide), by decide⟩
  · intro tool command
    refine ⟨?_, ?_, ?_⟩
    · rintro ⟨pr, hmem, hmatch⟩
      have hs : (CRITICAL_PATTERNS.find? (fun pr => rxSearch pr.2 (pyStrip command))).isSome :=
        List.find?_isSome.mpr ⟨pr, hmem, hmatch⟩
      obtain ⟨pr', hf⟩ := Option.isSome_iff_exists.mp hs
      simp [classify, hf]
    · intro hcf
      rintro ⟨pr, hmem, hmatch⟩
      have hnone : CRITICAL_PATTERNS.find? (fun pr => rxSearch pr.2 (pyStrip command)) =
          Option.none :=
        List.find?_eq_none.mpr (by intro x hx; simp [hcf x hx])
      have hs : (HIGH_PATTERNS.find? (fun pr => rxSearch pr.2 (pyStrip command))).isSome :=
        List.find?_isSome.mpr ⟨pr, hmem, hmatch⟩
      obtain ⟨pr', hf⟩ := Option.isSome_iff_exists.mp hs
      simp [classify, hnone, hf]
    · intro hcf hhf
      have hnone1 : CRITICAL_PATTERNS.find? (fun pr => rxSearch pr.2 (pyStrip command)) =
          Option.none :=
        List.find?_eq_none.mpr (by intro x hx; simp [hcf x hx])
      have hnone2 : HIGH_PATTERNS.find? (fun pr => rxSearch pr.2 (pyStrip command)) =
          Option.none :=
        List.find?_eq_none.mpr (by intro x hx; simp [hhf x hx])
      simp [classify, hnone1, hnone2]

open ToolSafety in
/-- Witness for C7 at concrete inputs: mkfs matches a CRITICAL pattern and
classifies CRITICAL; ls matches nothing and classifies LOW for an
unrecognized tool kind. -/
theorem c7_witness :
    (classify "shell" "mkfs").1 = "CRITICAL" ∧ classify "other" "ls" = ("LOW", Option.none) := by
  constructor
  · exact (c7_classifier_precedence.2 "shell" "mkfs").1 (by decide)
  · exact ((c7_classifier_precedence.2 "other" "ls").2.2 (by decide) (by decide)).trans (by decide)

/-- Counterexample for C1 as stated: with no Permission record and an empty
registry, evaluate denies the unregistered tool with DENY_TOOL_NOT_FOUND,
not DENY_NO_MATCHING_RULE. -/
theorem c1_counterexample :
    dictGet ({} : Gateway.PolicyEngine).permissions "alice" = Option.none ∧
    Gateway.PolicyEngine.evaluate {} {} { sub := "alice", actor_type := "user" } "tool_a"
      Option.none =
      { result := .deny, reason_codes := [.DENY_TOOL_NOT_FOUND] } ∧
    ([Gateway.ReasonCode.DENY_TOOL_NOT_FOUND] : List Gateway.ReasonCode) ≠
      [Gateway.ReasonCode.DENY_NO_MATCHING_RULE] := by
  refine ⟨rfl, by decide, by decide⟩

/-- C1 amended: for a principal with no Permission record the decision
result is always deny; the reason code is DENY_NO_MATCHING_RULE whenever the
tool is not kill-switched and is present in the registry (otherwise the
earlier kill-switch or tool-existence checks produce their own deny codes). -/
theorem c1_deny_by_default_amended (pe : Gateway.PolicyEngine) (reg : Gateway.ToolRegistry)
    (p : Gateway.Principal) (tool_name : String) (args : Option Json)
    (hperm : dictGet pe.permissions p.sub = Option.none) :
    (pe.evaluate reg p tool_name args).result = .deny ∧
    (pe.kill_switch_tools.contains tool_name = false →
      (∃ t ∈ reg.list_all, t.tool_name = tool_name) →
      pe.evaluate reg p tool_name args =
        { result := .deny, reason_codes := [.DENY_NO_MATCHING_RULE] }) := by
  unfold Gateway.PolicyEngine.evaluate
  by_cases hks : pe.kill_switch_tools.contains tool_name = true
  · rw [if_pos hks]
    refine ⟨rfl, fun hc _ => ?_⟩
    rw [hks] at hc
    exact absurd hc (by decide)
  · rw [if_neg hks]
    cases hfind : reg.list_all.find? (fun t => decide (t.tool_name = tool_name)) with
    | none =>
      refine ⟨by simp [hfind], ?_⟩
      rintro _ ⟨t, hmem, hname⟩
      have := List.find?_eq_none.mp hfind t hmem
      simp [hname] at this
    | some tool =>
      exact ⟨by simp [hfind, hperm], fun _ _ => by simp [hfind, hperm]⟩

/-- Witness for C1 amended: the empty engine with a one-tool registry denies
that tool for alice with exactly DENY_NO_MATCHING_RULE. -/
theorem c1_witness :
    Gateway.PolicyEngine.evaluate {}
      { tools := [(("s", "tool_a"),
        { server_id := "s", tool_name := "tool_a", trust_level := .unknown,
          risk_category := .LOW })] }
      { sub := "alice", actor_type := "user" } "tool_a" Option.none =
      { result := .deny, reason_codes := [.DENY_NO_MATCHING_RULE] } :=
  (c1_deny_by_default_amended {} _ _ "tool_a" Option.none rfl).2 (by decide)
    ⟨{ server_id := "s", tool_name := "tool_a", trust_level := .unknown, risk_category := .LOW },
     by decide, rfl⟩

/-- C10: grant unconditionally overwrites the stored max_risk with the
latest call's argument while only extending allowed_tools; evaluate then
applies the new ceiling to every allowed tool, so a tool whose risk exceeds
the lowered ceiling moves from allow to require_approval, as the closing
concrete scenario shows for a HIGH-risk tool after a LOW re-grant. -/
theorem c10_grant_overwrites_max_risk :
    (∀ (pe : Gateway.PolicyEngine) (sub : String) (tools : List String)
       (r : Gateway.RiskCategory),
      ∃ perm, dictGet (pe.grant sub tools r).permissions sub = Option.some perm ∧
        perm.max_risk = r ∧
        (∀ t, t ∈ perm.allowed_tools ↔
          t ∈ ((dictGet pe.permissions sub).getD
                { principal_sub := sub : Gateway.Permission }).allowed_tools ∨ t ∈ tools)) ∧
    (∀ (pe : Gateway.PolicyEngine) (reg : Gateway.ToolRegistry) (p : Gateway.Principal)
       (tool_name : String) (args : Option Json) (perm : Gateway.Permission)
       (entry : Gateway.ToolEntry),
      pe.kill_switch_tools.contains tool_name = false →
      reg.list_all.find? (fun t => t.tool_name = tool_name) = Option.some entry →
      dictGet pe.permissions p.sub = Option.some perm →
      perm.denied_tools.contains tool_name = false →
      perm.allowed_tools.contains tool_name = true →
      Gateway.riskIndex entry.risk_category > Gateway.riskIndex perm.max_risk →
      pe.evaluate reg p tool_name args =
        { result := .require_approval, reason_codes := [.REQUIRE_APPROVAL] }) ∧
    (let reg := (Gateway.ToolRegistry.register {} "s" "write_file" Option.none).1
     let p : Gateway.Principal := { sub := "alice", actor_type := "user" }
     let pe1 := Gateway.PolicyEngine.grant {} "alice" ["write_file"] .HIGH
     let pe2 := pe1.grant "alice" ["other_tool"] .LOW
     (pe1.evaluate reg p "write_file" Option.none).result = .allow ∧
     (pe2.evaluate reg p "write_file" Option.none).result = .require_approval) := by
  refine ⟨?_, ?_, by decide⟩
  · intro pe sub tools r
    refine ⟨_, dictGet_dictSet_self _ _ _, rfl, ?_⟩
    intro t
    exact mem_setAdd tools _ t
  · intro pe reg p tool_name args perm entry hks hfind hperm hden hall hrisk
    unfold Gateway.PolicyEngine.evaluate
    rw [if_neg (by rw [hks]; decide)]
    simp only [hfind, hperm]
    rw [if_neg (by rw [hden]; decide), if_neg (by rw [hall]; decide), if_pos hrisk]

/-- Witness for C10 at the concrete lowered-ceiling scenario: applying the
general require_approval consequence to the re-granted engine. -/
theorem c10_witness :
    Gateway.PolicyEngine.evaluate
      (Gateway.PolicyEngine.grant (Gateway.PolicyEngine.grant {} "alice" ["write_file"] .HIGH)
        "alice" ["other_tool"] .LOW)
      (Gateway.ToolRegistry.register {} "s" "write_file" Option.none).1
      { sub := "alice", actor_type := "user" } "write_file" Option.none =
      { result := .require_approval, reason_codes := [.REQUIRE_APPROVAL] } :=
  c10_grant_overwrites_max_risk.2.1 _ _ _ "write_file" Option.none
    { principal_sub := "alice", allowed_tools := ["write_file", "other_tool"],
      denied_tools := [], max_risk := .LOW }
    { server_id := "s", tool_name := "write_file", trust_level := .unknown,
      risk_category := .HIGH, schema := Option.none }
    (by decide) (by decide) (by decide) (by decide) (by decide) (by decide)

/-- A list is a prefix of itself followed by anything. -/
theorem isPrefixList_append {α : Type} [DecidableEq α] :
    ∀ (p r : List α), isPrefixList p (p ++ r) = true
  | [], _ => rfl
  | a :: as, r => by
    simp [isPrefixList, isPrefixList_append as r]

/-- Counterexample for C5 as stated: a vault configured with a secret equal
to the client token returns a vault-mode credential byte-equal to the client
token, and a client token shaped like the simulated exchange output is
returned unchanged under exchanged mode. -/
theorem c5_counterexample :
    ((Gateway.CredentialBroker.configure_vault {} "srv" "tok").get_upstream_credential
        "tok" "srv").1 =
      Option.some { token := Option.some "tok", mode := .vault, audience := Option.some "srv" } ∧
    ((Gateway.CredentialBroker.configure_exchange {} "s" "aud" Option.none).get_upstream_credential
        "exchanged:s:exchange..." "s").1 =
      Option.some { token := Option.some "exchanged:s:exchange...", mode := .exchanged,
                    audience := Option.some "aud" } := by
  exact ⟨by decide, by decide⟩

/-- C5 amended: a returned vault credential carries exactly the configured
vault secret (so it equals the client token only when that secret was
configured byte-equal to it), and a returned exchanged credential carries
exactly exchanged:server:first-8-chars..., which differs from the client
token whenever the client token does not itself start with exchanged:. -/
theorem c5_no_passthrough_amended (cb : Gateway.CredentialBroker)
    (client_token target_server : String) (cred : Gateway.UpstreamCredential)
    (th : Gateway.TokenHandling)
    (hret : cb.get_upstream_credential client_token target_server = (Option.some cred, th)) :
    (cred.mode = .vault →
      dictGet cb.vault target_server = Option.some (cred.token.getD "") ∧
      (dictGet cb.vault target_server ≠ Option.some client_token →
        cred.token ≠ Option.some client_token)) ∧
    (cred.mode = .exchanged →
      cred.token =
        Option.some ("exchanged:" ++ target_server ++ ":" ++ client_token.take 8 ++ "...") ∧
      (isPrefixList "exchanged:".data client_token.data = false →
        cred.token ≠ Option.some client_token)) := by
  unfold Gateway.CredentialBroker.get_upstream_credential at hret
  cases hv : dictGet cb.vault target_server with
  | some secret =>
    simp only [hv, Prod.mk.injEq, Option.some.injEq] at hret
    obtain ⟨rfl, rfl⟩ := hret
    constructor
    · intro _
      refine ⟨by simp [hv], ?_⟩
      intro hne heq
      have hsec : secret = client_token := by simpa using heq
      exact hne (congrArg Option.some hsec)
    · intro hm
      simp at hm
  | none =>
    simp only [hv] at hret
    cases he : dictGet cb.exchange_config target_server with
    | some cfg =>
      simp only [he, Prod.mk.injEq, Option.some.injEq] at hret
      obtain ⟨rfl, rfl⟩ := hret
      constructor
      · intro hm
        simp at hm
      · intro _
        refine ⟨rfl, ?_⟩
        intro hpre heq
        have hstr : ("exchanged:" ++ target_server ++ ":" ++ client_token.take 8 ++ "...") =
            client_token := by simpa using heq
        have hdata : client_token.data =
            "exchanged:".data ++ (target_server.data ++ (":".data ++
              ((client_token.take 8).data ++ "...".data))) := by
          conv_lhs => rw [← hstr]
          simp [String.data_append]
        have hp : isPrefixList "exchanged:".data client_token.data = true := by
          rw [hdata]
          exact isPrefixList_append _ _
        rw [hp] at hpre
        exact absurd hpre (by decide)
    | none =>
      simp only [he] at hret
      by_cases hb : cb.passthrough_blocked = true
      · rw [if_pos hb] at hret
        simp at hret
      · rw [if_neg hb] at hret
        simp at hret

/-- Witness for C5 amended: with a vault secret different from the client
token, and with an exchanged token for a client token that does not start
with exchanged:, the returned credentials differ from the client token. -/
theorem c5_witness :
    (Gateway.UpstreamCredential.token
      { token := Option.some "s3cret", mode := .vault, audience := Option.some "srv" } ≠
        Option.some "tok") ∧
    (Gateway.UpstreamCredential.token
      { token := Option.some "exchanged:s:mytoken...", mode := .exchanged,
        audience := Option.some "aud" } ≠ Option.some "mytoken") := by
  constructor
  · exact ((c5_no_passthrough_amended
      (Gateway.CredentialBroker.configure_vault {} "srv" "s3cret") "tok" "srv"
      { token := Option.some "s3cret", mode := .vault, audience := Option.some "srv" }
      { mode := .vault, passthrough_detected := false, audience := Option.some "srv" }
      (by decide)).1 rfl).2 (by decide)
  · exact ((c5_no_passthrough_amended
      (Gateway.CredentialBroker.configure_exchange {} "s" "aud" Option.none) "mytoken" "s"
      { token := Option.some "exchanged:s:mytoken...", mode := .exchanged,
        audience := Option.some "aud" }
      { mode := .exchanged, passthrough_detected := false, audience := Option.some "aud" }
      (by decide)).2 rfl).2 (by decide)

/-- C9: evaluation of the listener fan-out at the failing input the claim is
about. With the output file configured and a single raising listener,
ReceiptEmitter.emit leaves the receipt in the in-memory store but never
reaches the output-file write (and does not return); the same emitter with
no raising listener does write the file line. The incident-controller
mutation, by contrast, fully survives a raising listener because both the
set update and the event append precede notification. -/
theorem c9_listener_failure :
    (let em : ListenerModel.LReceiptEmitter :=
       { output_path := true, listeners := [fun _ => false] }
     let out := em.emit 0 Gateway.anonymousPrincipal "tools/call"
       { result := .deny, reason_codes := [.DENY_NO_AUTHN] }
       { mode := .none, passthrough_detected := false }
       Option.none Option.none Option.none Option.none Option.none Option.none
     out.1.receipts.length = 1 ∧ out.1.fileLines = [] ∧ out.2 = Option.none) ∧
    (let em0 : ListenerModel.LReceiptEmitter := { output_path := true, listeners := [] }
     let out := em0.emit 0 Gateway.anonymousPrincipal "tools/call"
       { result := .deny, reason_codes := [.DENY_NO_AUTHN] }
       { mode := .none, passthrough_detected := false }
       Option.none Option.none Option.none Option.none Option.none Option.none
     out.1.receipts.length = 1 ∧ out.1.fileLines.length = 1 ∧ out.2.isSome = true) ∧
    (let ic : ListenerModel.LIncidentController := { listeners := [fun _ => false] }
     let out := ic.activate_kill_switch "ts-0" ["tool_x"] "system"
     out.1.kill_switch_tools = ["tool_x"] ∧ out.1.events.length = 1 ∧ out.2 = false) := by
  refine ⟨⟨?_, ?_, ?_⟩, ⟨?_, ?_, ?_⟩, ⟨?_, ?_, ?_⟩⟩ <;> rfl

/-- C6: every receipt the gateway emits whose decision is allow has
passthrough_detected = false: every deny branch receipts its own failing
decision, and the allow branches attach either the no-token handling or a
broker handling that the preceding check has verified has
passthrough_detected = false. -/
theorem c6_allow_no_passthrough (gw : Gateway.MCPGateway) (token : Option String)
    (tool_name : String) (arguments : RDict) (server_id trace_id : Option String) :
    (((gw.handle_tools_call token tool_name arguments server_id trace_id).2.1).2.decision.result =
        .allow →
      ((gw.handle_tools_call token tool_name arguments server_id
          trace_id).2.1).2.token_handling.passthrough_detected = false) ∧
    (((gw.handle_tools_list token trace_id).2.1).2.2.decision.result = .allow →
      ((gw.handle_tools_list token trace_id).2.1).2.2.token_handling.passthrough_detected =
        false) := by
  constructor
  · unfold Gateway.MCPGateway.handle_tools_call
    dsimp only
    split
    · intro h
      simp [Gateway.ReceiptEmitter.emit, Gateway.Receipt.create, Gateway.deny_no_authn] at h
    · split
      · intro h
        simp [Gateway.ReceiptEmitter.emit, Gateway.Receipt.create] at h
      · split
        · rename_i hnotallow
          intro h
          simp [Gateway.ReceiptEmitter.emit, Gateway.Receipt.create] at h
          exact absurd h hnotallow
        · split
          · rename_i hinvalid
            intro h
            simp [Gateway.ReceiptEmitter.emit, Gateway.Receipt.create,
              Gateway.PreflightValidator.to_decision] at h
            split at h
            · rename_i hvalid
              rw [hvalid] at hinvalid
              exact absurd hinvalid (by decide)
            · simp at h
          · split
            · split
              · intro _
                simp [Gateway.ReceiptEmitter.emit, Gateway.Receipt.create]
              · split
                · intro h
                  simp [Gateway.ReceiptEmitter.emit, Gateway.Receipt.create,
                    Gateway.deny_passthrough] at h
                · rename_i hnopass
                  intro _
                  simp [Gateway.ReceiptEmitter.emit, Gateway.Receipt.create]
                  simpa using hnopass
            · intro _
              simp [Gateway.ReceiptEmitter.emit, Gateway.Receipt.create]
  · unfold Gateway.MCPGateway.handle_tools_list
    dsimp only
    split
    · intro h
      simp [Gateway.ReceiptEmitter.emit, Gateway.Receipt.create, Gateway.deny_no_authn] at h
    · intro _
      simp [Gateway.ReceiptEmitter.emit, Gateway.Receipt.create]

/-- Concrete gateway state shared by several witnesses: alice may call the registered
LOW-risk tool_x and no upstream server is involved, so the call is allowed. -/
def demoGateway : Gateway.MCPGateway :=
  { registry := { tools := [(("s", "tool_x"),
      { server_id := "s", tool_name := "tool_x", trust_level := .unknown,
        risk_category := .LOW })] }
    authn := { valid_tokens := [("token_alice",
      { sub := Option.some "alice", actor_type := Option.some "user" })] }
    authz := { permissions := [("alice",
      { principal_sub := "alice", allowed_tools := ["tool_x"] })] }
    preflight := { within := fun _ => true }
    sandbox := { workspace := "ws" } }

/-- A gateway where principal alice holds permission for the file tool fs_read
(classified MEDIUM by the registry via the "read" substring, within the default
HIGH ceiling), mirroring the conformance fixture that registers fs_read and
grants it to alice. -/
def crashGateway : Gateway.MCPGateway :=
  { registry := { tools := [(("s", "fs_read"),
      { server_id := "s", tool_name := "fs_read", trust_level := .unknown,
        risk_category := .MEDIUM })] }
    authn := { valid_tokens := [("token_alice",
      { sub := Option.some "alice", actor_type := Option.some "user" })] }
    authz := { permissions := [("alice",
      { principal_sub := "alice", allowed_tools := ["fs_read"] })] }
    preflight := { within := fun _ => true }
    sandbox := { workspace := "ws" } }

/-- Witness for C6: on a request the pipeline allows, the emitted receipt
has passthrough_detected = false. -/
theorem c6_witness :
    ((demoGateway.handle_tools_call (Option.some "token_alice") "tool_x" [] Option.none
        Option.none).2.1).2.decision.result = .allow ∧
    ((demoGateway.handle_tools_call (Option.some "token_alice") "tool_x" [] Option.none
        Option.none).2.1).2.token_handling.passthrough_detected = false :=
  ⟨by decide,
   (c6_allow_no_passthrough demoGateway (Option.some "token_alice") "tool_x" [] Option.none
     Option.none).1 (by decide)⟩

/-- C2 amended: each handler call that returns normally appends exactly the
returned receipt to the store (one receipt per request, emitted at the stage
where the pipeline terminates) — the only abnormal region is the uncaught
TypeError of a truthy non-string path argument for a file tool
(handle_tools_call_raises), where Python aborts with no receipt at all, as
c2_counterexample shows — and once a check fails no later pipeline stage is
evaluated: an authentication failure or a revoked principal stops before
authorization, a non-allow authorization stops before preflight, and a
preflight failure stops before credential brokering. -/
theorem c2_single_receipt_short_circuit (gw : Gateway.MCPGateway) (token : Option String)
    (tool_name : String) (arguments : RDict) (server_id trace_id : Option String) :
    (gw.handle_tools_call_raises token tool_name arguments = false →
      (gw.handle_tools_call token tool_name arguments server_id trace_id).1.receipts.receipts =
        gw.receipts.receipts ++
          [((gw.handle_tools_call token tool_name arguments server_id trace_id).2.1).2]) ∧
    ((gw.authn.authenticate token).authenticated = false →
      Gateway.Stage.authz ∉ (gw.handle_tools_call token tool_name arguments server_id trace_id).2.2 ∧
      Gateway.Stage.preflight ∉ (gw.handle_tools_call token tool_name arguments server_id trace_id).2.2 ∧
      Gateway.Stage.credentials ∉ (gw.handle_tools_call token tool_name arguments server_id trace_id).2.2) ∧
    ((gw.authn.authenticate token).authenticated = true →
     gw.incident.is_revoked ((gw.authn.authenticate token).principal.getD
       Gateway.anonymousPrincipal) = true →
      Gateway.Stage.authz ∉ (gw.handle_tools_call token tool_name arguments server_id trace_id).2.2 ∧
      Gateway.Stage.preflight ∉ (gw.handle_tools_call token tool_name arguments server_id trace_id).2.2 ∧
      Gateway.Stage.credentials ∉ (gw.handle_tools_call token tool_name arguments server_id trace_id).2.2) ∧
    ((gw.authn.authenticate token).authenticated = true →
     gw.incident.is_revoked ((gw.authn.authenticate token).principal.getD
       Gateway.anonymousPrincipal) = false →
     (gw.authz.evaluate gw.registry ((gw.authn.authenticate token).principal.getD
        Gateway.anonymousPrincipal) tool_name (Option.some (.obj arguments))).result ≠ .allow →
      Gateway.Stage.preflight ∉ (gw.handle_tools_call token tool_name arguments server_id trace_id).2.2 ∧
      Gateway.Stage.credentials ∉ (gw.handle_tools_call token tool_name arguments server_id trace_id).2.2) ∧
    ((gw.authn.authenticate token).authenticated = true →
     gw.incident.is_revoked ((gw.authn.authenticate token).principal.getD
       Gateway.anonymousPrincipal) = false →
     (gw.authz.evaluate gw.registry ((gw.authn.authenticate token).principal.getD
        Gateway.anonymousPrincipal) tool_name (Option.some (.obj arguments))).result = .allow →
     (gw.preflight.validate tool_name arguments).valid = false →
      Gateway.Stage.credentials ∉ (gw.handle_tools_call token tool_name arguments server_id trace_id).2.2) ∧
    ((gw.handle_tools_list token trace_id).1.receipts.receipts =
      gw.receipts.receipts ++ [((gw.handle_tools_list token trace_id).2.1).2.2]) := by
  refine ⟨?_, ?_, ?_, ?_, ?_, ?_⟩
  · intro _
    unfold Gateway.MCPGateway.handle_tools_call
    dsimp only
    split
    all_goals try split
    all_goals try split
    all_goals try split
    all_goals try split
    all_goals try split
    all_goals try split
    all_goals simp [Gateway.ReceiptEmitter.emit]
  · intro hfail
    unfold Gateway.MCPGateway.handle_tools_call
    dsimp only
    simp [hfail]
  · intro hok hrev
    unfold Gateway.MCPGateway.handle_tools_call
    dsimp only
    simp [hok, hrev]
  · intro hok hnorev hnoallow
    unfold Gateway.MCPGateway.handle_tools_call
    dsimp only
    simp [hok, hnorev, hnoallow]
  · intro hok hnorev hallow hinvalid
    unfold Gateway.MCPGateway.handle_tools_call
    dsimp only
    simp [hok, hnorev, hallow, hinvalid]
  · unfold Gateway.MCPGateway.handle_tools_list
    dsimp only
    split
    all_goals simp [Gateway.ReceiptEmitter.emit]

/-- Witness for C2: the authentication-failure run appends exactly the
returned receipt and evaluates none of the later stages. -/
theorem c2_witness :
    (demoGateway.handle_tools_call Option.none "tool_x" [] Option.none
        Option.none).1.receipts.receipts =
      demoGateway.receipts.receipts ++
        [((demoGateway.handle_tools_call Option.none "tool_x" [] Option.none
            Option.none).2.1).2] ∧
    Gateway.Stage.authz ∉
      (demoGateway.handle_tools_call Option.none "tool_x" [] Option.none Option.none).2.2 ∧
    Gateway.Stage.preflight ∉
      (demoGateway.handle_tools_call Option.none "tool_x" [] Option.none Option.none).2.2 ∧
    Gateway.Stage.credentials ∉
      (demoGateway.handle_tools_call Option.none "tool_x" [] Option.none Option.none).2.2 :=
  ⟨(c2_single_receipt_short_circuit demoGateway Option.none "tool_x" [] Option.none
      Option.none).1 (by decide),
   (c2_single_receipt_short_circuit demoGateway Option.none "tool_x" [] Option.none
      Option.none).2.1 (by decide)⟩

/-- Counterexample for C2 as stated: an authenticated, non-revoked call to the
file tool fs_read that authorization allows, whose "path" argument is the
number 5 — truthy but not a string — reaches the preflight workspace check,
where Path(5) raises a TypeError that the except (ValueError, OSError) clause
of _is_within_workspace does not catch; handle_tools_call aborts before any
emit, appending zero receipts rather than exactly one. -/
theorem c2_counterexample :
    (crashGateway.authn.authenticate (Option.some "token_alice")).authenticated = true ∧
    crashGateway.incident.is_revoked
      ((crashGateway.authn.authenticate (Option.some "token_alice")).principal.getD
        Gateway.anonymousPrincipal) = false ∧
    (crashGateway.authz.evaluate crashGateway.registry
      ((crashGateway.authn.authenticate (Option.some "token_alice")).principal.getD
        Gateway.anonymousPrincipal) "fs_read"
      (Option.some (.obj [("path", Json.num 5)]))).result = .allow ∧
    crashGateway.preflight.validate_raises "fs_read" [("path", Json.num 5)] = true ∧
    crashGateway.handle_tools_call_raises (Option.some "token_alice") "fs_read"
      [("path", Json.num 5)] = true := by
  decide

/-- Counterexample for C8 as stated: activating the kill switch for tool_x
through the IncidentController leaves gateway invocations of tool_x allowed,
because the pipeline consults only IncidentController.is_revoked and the
PolicyEngine keeps its own, separate kill-switch set. -/
theorem c8_counterexample :
    (let gw : Gateway.MCPGateway :=
       { demoGateway with
         incident := Gateway.IncidentController.activate_kill_switch {} "ts-0" ["tool_x"]
           "operator" }
     gw.incident.is_killed "tool_x" = true ∧
     ((gw.handle_tools_call (Option.some "token_alice") "tool_x" [] Option.none
         Option.none).2.1).1 =
       { result := .allow, reason_codes := [.ALLOW_POLICY_MATCH] }) := by
  exact ⟨by decide, by decide⟩

/-- C8 amended: the kill switch that governs the pipeline is the
PolicyEngine's own set (the conformance tests also activate it through
gateway.authz). Activating it for the listed tools makes evaluate deny each
of them with DENY_KILL_SWITCH and leaves other tools unaffected;
deactivating restores the prior behavior for tools that were not previously
kill-switched; and for an authenticated, unrevoked caller the gateway then
denies the call with DENY_KILL_SWITCH. The orchestrator consults
IncidentController.is_revoked, not is_killed, before authorization. -/
theorem c8_kill_switch_amended :
    (∀ (pe : Gateway.PolicyEngine) (reg : Gateway.ToolRegistry) (p : Gateway.Principal)
       (args : Option Json) (ts : List String) (tool : String), tool ∈ ts →
      (pe.activate_kill_switch ts).evaluate reg p tool args =
        { result := .deny, reason_codes := [.DENY_KILL_SWITCH] }) ∧
    (∀ (pe : Gateway.PolicyEngine) (reg : Gateway.ToolRegistry) (p : Gateway.Principal)
       (args : Option Json) (ts : List String) (tool : String), tool ∉ ts →
      (pe.activate_kill_switch ts).evaluate reg p tool args = pe.evaluate reg p tool args) ∧
    (∀ (pe : Gateway.PolicyEngine) (reg : Gateway.ToolRegistry) (p : Gateway.Principal)
       (args : Option Json) (ts : List String) (tool : String),
      tool ∉ pe.kill_switch_tools →
      ((pe.activate_kill_switch ts).deactivate_kill_switch ts).evaluate reg p tool args =
        pe.evaluate reg p tool args) ∧
    (∀ (gw : Gateway.MCPGateway) (token : Option String) (tool : String) (args : RDict)
       (sid tid : Option String),
      (gw.authn.authenticate token).authenticated = true →
      gw.incident.is_revoked ((gw.authn.authenticate token).principal.getD
        Gateway.anonymousPrincipal) = false →
      ((Gateway.MCPGateway.handle_tools_call
          { gw with authz := gw.authz.activate_kill_switch [tool] }
          token tool args sid tid).2.1).1 =
        { result := .deny, reason_codes := [.DENY_KILL_SWITCH] }) := by
  have hcontains : ∀ (ks ts : List String) (tool : String), tool ∈ ts →
      (setAdd ks ts).contains tool = true :=
    fun ks ts tool h => List.elem_iff.mpr ((mem_setAdd ts ks tool).mpr (Or.inr h))
  have ha : ∀ (pe : Gateway.PolicyEngine) (reg : Gateway.ToolRegistry) (p : Gateway.Principal)
      (args : Option Json) (ts : List String) (tool : String), tool ∈ ts →
      (pe.activate_kill_switch ts).evaluate reg p tool args =
        { result := .deny, reason_codes := [.DENY_KILL_SWITCH] } := by
    intro pe reg p args ts tool hmem
    unfold Gateway.PolicyEngine.evaluate Gateway.PolicyEngine.activate_kill_switch
    rw [if_pos (hcontains pe.kill_switch_tools ts tool hmem)]
  refine ⟨ha, ?_, ?_, ?_⟩
  · intro pe reg p args ts tool hnot
    unfold Gateway.PolicyEngine.evaluate Gateway.PolicyEngine.activate_kill_switch
    have heq : (setAdd pe.kill_switch_tools ts).contains tool =
        pe.kill_switch_tools.contains tool := by
      rw [Bool.eq_iff_iff, List.elem_iff, List.elem_iff, mem_setAdd]
      simp [hnot]
    rw [heq]
  · intro pe reg p args ts tool hnot
    unfold Gateway.PolicyEngine.evaluate Gateway.PolicyEngine.deactivate_kill_switch
      Gateway.PolicyEngine.activate_kill_switch
    have heq : (setRemove (setAdd pe.kill_switch_tools ts) ts).contains tool =
        pe.kill_switch_tools.contains tool := by
      rw [Bool.eq_iff_iff, List.elem_iff, List.elem_iff, mem_setRemove, mem_setAdd]
      constructor
      · rintro ⟨h1 | h1, h2⟩
        · exact absurd h1 hnot
        · exact absurd h1 h2
      · intro h
        exact absurd h hnot
    rw [heq]
  · intro gw token tool args sid tid hok hnorev
    unfold Gateway.MCPGateway.handle_tools_call
    dsimp only
    rw [ha gw.authz gw.registry ((gw.authn.authenticate token).principal.getD
      Gateway.anonymousPrincipal) (Option.some (.obj args)) [tool] tool
      (List.mem_singleton.mpr rfl)]
    simp [hok, hnorev, Gateway.ReceiptEmitter.emit]

/-- Witness for C8 amended: on the demo gateway with the PolicyEngine kill
switch activated for tool_x, the authenticated call to tool_x is denied with
DENY_KILL_SWITCH. -/
theorem c8_witness :
    ((Gateway.MCPGateway.handle_tools_call
        { demoGateway with authz := demoGateway.authz.activate_kill_switch ["tool_x"] }
        (Option.some "token_alice") "tool_x" [] Option.none Option.none).2.1).1 =
      { result := .deny, reason_codes := [.DENY_KILL_SWITCH] } :=
  c8_kill_switch_amended.2.2.2 demoGateway (Option.some "token_alice") "tool_x" [] Option.none
    Option.none (by decide) (by decide)

/-- Lookup after a dict write at the written key. -/
theorem lookup_setKey_self : ∀ (l : RDict) (k : String) (v : Json),
    Json.lookup (Json.setKey l k v) k = Option.some v
  | [], k, v => by simp [Json.lookup, Json.setKey, List.find?]
  | (k1, v1) :: rest, k, v => by
    by_cases h : k1 = k
    · simp [Json.lookup, Json.setKey, h, List.find?]
    · simp only [Json.setKey, if_neg h]
      have ih := lookup_setKey_self rest k v
      simp only [Json.lookup, List.find?] at ih ⊢
      simp [h, ih]

/-- Lookup after a dict write at a different key. -/
theorem lookup_setKey_ne : ∀ (l : RDict) (k k' : String) (v : Json), k ≠ k' →
    Json.lookup (Json.setKey l k v) k' = Json.lookup l k'
  | [], k, k', v, h => by simp [Json.lookup, Json.setKey, List.find?, h]
  | (k1, v1) :: rest, k, k', v, h => by
    by_cases h1 : k1 = k
    · simp only [Json.setKey, if_pos h1]
      by_cases h2 : k1 = k'
      · exact absurd (h2 ▸ h1.symm) (h1 ▸ h)
      · simp [Json.lookup, List.find?, h2]
    · simp only [Json.setKey, if_neg h1]
      have ih := lookup_setKey_ne rest k k' v h
      by_cases h2 : k1 = k'
      · simp [Json.lookup, List.find?, h2]
      · simp only [Json.lookup, List.find?] at ih ⊢
        simp [h2, ih]

/-- Key presence after a dict write at the written key. -/
theorem hasKey_setKey_self (l : RDict) (k : String) (v : Json) :
    Json.hasKey (Json.setKey l k v) k = true := by
  have := lookup_setKey_self l k v
  simp only [Json.lookup] at this
  simp only [Json.hasKey]
  cases hf : List.find? (fun kv => decide (kv.1 = k)) (Json.setKey l k v) with
  | none => rw [hf] at this; simp at this
  | some x => rfl

/-- Key presence after a dict write at a different key. -/
theorem hasKey_setKey_ne (l : RDict) (k k' : String) (v : Json) (h : k ≠ k') :
    Json.hasKey (Json.setKey l k v) k' = Json.hasKey l k' := by
  have := lookup_setKey_ne l k k' v h
  simp only [Json.lookup, Json.hasKey] at this ⊢
  cases hf : List.find? (fun kv => decide (kv.1 = k')) (Json.setKey l k v) with
  | none =>
    rw [hf] at this
    cases hg : List.find? (fun kv => decide (kv.1 = k')) l with
    | none => rfl
    | some y => rw [hg] at this; simp at this
  | some x =>
    rw [hf] at this
    cases hg : List.find? (fun kv => decide (kv.1 = k')) l with
    | none => rw [hg] at this; simp at this
    | some y => rfl

/-- Filtering away excluded keys ignores a write at an excluded key. -/
theorem filter_setKey_excl : ∀ (l : RDict) (k : String) (v : Json) (excl : List String),
    excl.contains k = true →
    (Json.setKey l k v).filter (fun kv => !(excl.contains kv.1)) =
      l.filter (fun kv => !(excl.contains kv.1))
  | [], k, v, excl, h => by
    have hm : k ∈ excl := List.elem_iff.mp h
    simp [Json.setKey, List.filter, hm]
  | (k1, v1) :: rest, k, v, excl, h => by
    by_cases h1 : k1 = k
    · subst h1
      have hm : k1 ∈ excl := List.elem_iff.mp h
      simp [Json.setKey, List.filter, hm]
    · simp only [Json.setKey, if_neg h1, List.filter_cons]
      rw [filter_setKey_excl rest k v excl h]

/-- A receipt whose stored receipt_hash equals the recomputed canonical hash
(with receipt_hash and signature excluded) passes verify_receipt_hash. -/
theorem receipt_hash_lookup_valid (r : RDict)
    (hl : Json.lookup r "receipt_hash" =
      Option.some (.str (CryptoCore.canonical_hash (.obj r) ["receipt_hash", "signature"]))) :
    (CryptoCore.verify_receipt_hash r).hash_valid = true := by
  have hk : Json.hasKey r "receipt_hash" = true := by
    simp only [Json.hasKey]
    simp only [Json.lookup] at hl
    cases hf : List.find? (fun kv => decide (kv.1 = "receipt_hash")) r with
    | none => rw [hf] at hl; simp at hl
    | some x => rfl
  unfold CryptoCore.verify_receipt_hash
  rw [hk]
  rw [if_neg (by decide)]
  rw [if_pos hl]

/-- C3: create_receipt stores in receipt_hash exactly the canonical hash of
the receipt with the receipt_hash and signature fields excluded, and this
round-trip holds both for unsigned receipts and after sign_receipt attaches
the signature field (the hash is over the same remaining fields either way),
so verify_receipt_hash accepts every created receipt; canonical_hash is a
pure function, hence recomputation on equal inputs is byte-for-byte equal. -/
theorem c3_hash_roundtrip :
    (∀ (receipt_id ts receipt_type : String) (payload : Json) (parents : List String)
       (tier : String) (kp : Option CryptoCore.KeyPair),
      Json.lookup (CryptoCore.create_receipt receipt_id ts receipt_type payload parents tier kp)
          "receipt_hash" =
        Option.some (.str (CryptoCore.canonical_hash
          (.obj (CryptoCore.create_receipt receipt_id ts receipt_type payload parents tier kp))
          ["receipt_hash", "signature"])) ∧
      (CryptoCore.verify_receipt_hash
        (CryptoCore.create_receipt receipt_id ts receipt_type payload parents tier kp)).hash_valid =
        true) ∧
    (∀ (o o' : Json) (ex ex' : List String), o = o' → ex = ex' →
      CryptoCore.canonical_hash o ex = CryptoCore.canonical_hash o' ex') := by
  constructor
  · intro receipt_id ts receipt_type payload parents tier kp
    have hch : ∀ kvs : RDict,
        CryptoCore.canonical_hash (.obj kvs) ["receipt_hash", "signature"] =
          "sha256:" ++ sha256hex (utf8Bytes (CryptoCore.jcs_canonicalize
            (.obj (kvs.filter (fun kv =>
              !((["receipt_hash", "signature"] : List String).contains kv.1)))))) :=
      fun kvs => rfl
    unfold CryptoCore.create_receipt
    dsimp only
    set base : RDict :=
      [("receipt_id", .str receipt_id),
       ("receipt_type", .str receipt_type),
       ("ts", .str ts),
       ("payload", payload),
       ("parent_hashes", .arr (parents.map .str)),
       ("proof_tier", .str tier),
       ("schema_version", .str "crs/0.1")] with hbase
    set h := CryptoCore.canonical_hash (.obj base) ["receipt_hash", "signature"] with hh
    have hlook1 : Json.lookup (Json.setKey base "receipt_hash" (.str h)) "receipt_hash" =
        Option.some (.str h) := lookup_setKey_self base "receipt_hash" (.str h)
    have hhash1 : CryptoCore.canonical_hash
        (.obj (Json.setKey base "receipt_hash" (.str h))) ["receipt_hash", "signature"] = h := by
      rw [hch, filter_setKey_excl base "receipt_hash" (.str h) _ (by decide), ← hch, ← hh]
    have goal1 : Json.lookup (Json.setKey base "receipt_hash" (.str h)) "receipt_hash" =
        Option.some (.str (CryptoCore.canonical_hash
          (.obj (Json.setKey base "receipt_hash" (.str h))) ["receipt_hash", "signature"])) := by
      rw [hhash1, hlook1]
    cases kp with
    | none =>
      dsimp only
      exact ⟨goal1, receipt_hash_lookup_valid _ goal1⟩
    | some kpv =>
      dsimp only
      by_cases htier : tier = "core" ∨ tier = "court"
      · rw [if_pos htier]
        have hsign : CryptoCore.sign_receipt (Json.setKey base "receipt_hash" (.str h)) kpv =
            Option.some (Json.setKey (Json.setKey base "receipt_hash" (.str h)) "signature"
              (CryptoCore.Signature.toDict
                { alg := "Ed25519", key_id := kpv.key_id,
                  sig := b64Encode (sha256Bytes (utf8Bytes
                    ("SIMULATED_SIG:" ++ h ++ ":" ++ kpv.key_id))) })) := by
          unfold CryptoCore.sign_receipt
          rw [hlook1]
        rw [hsign]
        dsimp only [Option.getD]
        have hlook2 : Json.lookup (Json.setKey (Json.setKey base "receipt_hash" (.str h))
            "signature" (CryptoCore.Signature.toDict
              { alg := "Ed25519", key_id := kpv.key_id,
                sig := b64Encode (sha256Bytes (utf8Bytes
                  ("SIMULATED_SIG:" ++ h ++ ":" ++ kpv.key_id))) })) "receipt_hash" =
            Option.some (.str h) := by
          rw [lookup_setKey_ne _ "signature" "receipt_hash" _ (by decide), hlook1]
        have hhash2 : CryptoCore.canonical_hash
            (.obj (Json.setKey (Json.setKey base "receipt_hash" (.str h)) "signature"
              (CryptoCore.Signature.toDict
                { alg := "Ed25519", key_id := kpv.key_id,
                  sig := b64Encode (sha256Bytes (utf8Bytes
                    ("SIMULATED_SIG:" ++ h ++ ":" ++ kpv.key_id))) })))
            ["receipt_hash", "signature"] = h := by
          rw [hch, filter_setKey_excl _ "signature" _ _ (by decide),
            filter_setKey_excl base "receipt_hash" (.str h) _ (by decide), ← hch, ← hh]
        exact ⟨by rw [hhash2]; exact hlook2,
          receipt_hash_lookup_valid _ (by rw [hhash2]; exact hlook2)⟩
      · rw [if_neg htier]
        exact ⟨goal1, receipt_hash_lookup_valid _ goal1⟩
  · intro o o' ex ex' ho hex
    rw [ho, hex]

/-- Witness for C3: a concrete signed receipt passes verify_receipt_hash,
and recomputing the canonical hash of equal inputs gives equal strings. -/
theorem c3_witness :
    (CryptoCore.verify_receipt_hash
      (CryptoCore.create_receipt "id1" "ts1" "crs.test/v1" (.obj [("k", .str "v")]) []
        "core" (Option.some { key_id := "key1" }))).hash_valid = true ∧
    CryptoCore.canonical_hash (.obj [("a", .num 1)]) ["signature"] =
      CryptoCore.canonical_hash (.obj [("a", .num 1)]) ["signature"] :=
  ⟨(c3_hash_roundtrip.1 "id1" "ts1" "crs.test/v1" (.obj [("k", .str "v")]) [] "core"
      (Option.some { key_id := "key1" })).2,
   c3_hash_roundtrip.2 (.obj [("a", .num 1)]) (.obj [("a", .num 1)]) ["signature"] ["signature"]
     rfl rfl⟩

/-- chain-step bookkeeping: the per-receipt result of verify_chain keeps the
hash_valid verdict of verify_receipt_hash unchanged. -/
theorem chainStep_hash_valid (known : List Json) (r : RDict)
    (pk : Option (List (String × List Nat))) :
    (CryptoCore.chainStep known r pk).hash_valid = (CryptoCore.verify_receipt_hash r).hash_valid := by
  unfold CryptoCore.chainStep
  dsimp only
  split
  all_goals try split
  all_goals try split
  all_goals try split
  all_goals simp [apply_ite]

/-- verify_receipt_hash never sets chain_valid. -/
theorem verify_receipt_hash_chain_valid (r : RDict) :
    (CryptoCore.verify_receipt_hash r).chain_valid = Option.none := by
  unfold CryptoCore.verify_receipt_hash
  dsimp only
  split
  · rfl
  · split <;> rfl

/-- chain-step chain_valid verdict: none without declared parents, true when
every declared parent is in the known set, false otherwise; the signature
block never changes it. -/
theorem chainStep_chain_valid (known : List Json) (r : RDict)
    (pk : Option (List (String × List Nat))) :
    (CryptoCore.chainStep known r pk).chain_valid =
      (if (CryptoCore.parentsOf r).isEmpty then Option.none
       else if ((CryptoCore.parentsOf r).filter (fun h => !(known.contains h))).isEmpty then
         Option.some true
       else Option.some false) := by
  unfold CryptoCore.chainStep
  dsimp only
  split
  all_goals try split
  all_goals try split
  all_goals try split
  all_goals try split
  all_goals try simp_all [verify_receipt_hash_chain_valid, apply_ite]
  all_goals
    (obtain ⟨x, hx, hnx⟩ := ‹∃ x ∈ CryptoCore.parentsOf r, x ∉ known›
     exact hnx (‹∀ a ∈ CryptoCore.parentsOf r, a ∈ known› x hx))

/-- verify_chain distributes over append: the results for a prefix do not
depend on the receipts that follow, and the known-hash set threads through
as chainKnownFrom. -/
theorem verifyChainGo_append (pk : Option (List (String × List Nat))) :
    ∀ (rs1 : List RDict) (known : List Json) (rs2 : List RDict),
      CryptoCore.verifyChainGo pk known (rs1 ++ rs2) =
        CryptoCore.verifyChainGo pk known rs1 ++
          CryptoCore.verifyChainGo pk (CryptoCore.chainKnownFrom known rs1) rs2
  | [], known, rs2 => by simp [CryptoCore.verifyChainGo, CryptoCore.chainKnownFrom]
  | r :: rs1, known, rs2 => by
    simp only [List.cons_append, CryptoCore.verifyChainGo, CryptoCore.chainKnownFrom,
      chainStep_hash_valid, List.cons.injEq, true_and]
    exact verifyChainGo_append pk rs1 _ rs2

/-- C4: placing a receipt after a prefix, verify_chain returns the prefix's
own results unchanged followed by this receipt's result (later receipts
never alter earlier results); the receipt's chain_valid is false exactly
when some declared parent is missing from the valid hashes accumulated over
the prefix, and true when parents are declared and all of them appeared
there as valid receipt hashes. -/
theorem c4_chain_integrity (pk : Option (List (String × List Nat))) (rs1 : List RDict)
    (r : RDict) (rs2 : List RDict) :
    (CryptoCore.verify_chain (rs1 ++ r :: rs2) pk =
      CryptoCore.verify_chain rs1 pk ++
        CryptoCore.chainStep (CryptoCore.chainKnownFrom [] rs1) r pk ::
          CryptoCore.verifyChainGo pk
            (if (CryptoCore.verify_receipt_hash r).hash_valid = true then
              CryptoCore.chainKnownFrom [] rs1 ++ [(Json.lookup r "receipt_hash").getD .null]
             else CryptoCore.chainKnownFrom [] rs1) rs2) ∧
    ((∃ p ∈ CryptoCore.parentsOf r, (CryptoCore.chainKnownFrom [] rs1).contains p = false) →
      (CryptoCore.chainStep (CryptoCore.chainKnownFrom [] rs1) r pk).chain_valid =
        Option.some false) ∧
    (CryptoCore.parentsOf r ≠ [] →
      (∀ p ∈ CryptoCore.parentsOf r, (CryptoCore.chainKnownFrom [] rs1).contains p = true) →
      (CryptoCore.chainStep (CryptoCore.chainKnownFrom [] rs1) r pk).chain_valid =
        Option.some true) := by
  refine ⟨?_, ?_, ?_⟩
  · unfold CryptoCore.verify_chain
    rw [verifyChainGo_append pk rs1 [] (r :: rs2)]
    congr 1
    simp only [CryptoCore.verifyChainGo, chainStep_hash_valid]
  · rintro ⟨p, hmem, hnc⟩
    rw [chainStep_chain_valid]
    have hp : (CryptoCore.parentsOf r).isEmpty = false :=
      List.isEmpty_eq_false.mpr (List.ne_nil_of_mem hmem)
    rw [if_neg (by rw [hp]; decide)]
    have hmf : p ∈ (CryptoCore.parentsOf r).filter
        (fun h => !((CryptoCore.chainKnownFrom [] rs1).contains h)) :=
      List.mem_filter.mpr ⟨hmem, by rw [hnc]; decide⟩
    rw [if_neg (by rw [List.isEmpty_eq_false.mpr (List.ne_nil_of_mem hmf)]; decide)]
  · intro hne hall
    rw [chainStep_chain_valid]
    rw [if_neg (by rw [List.isEmpty_eq_false.mpr hne]; decide)]
    have hnil : (CryptoCore.parentsOf r).filter
        (fun h => !((CryptoCore.chainKnownFrom [] rs1).contains h)) = [] := by
      rw [List.filter_eq_nil_iff]
      intro p hmem
      rw [hall p hmem]
      decide
    rw [if_pos (by rw [hnil]; rfl)]

/-- First receipt of the witness chain (no parents). -/
def c4r1 : RDict := CryptoCore.create_receipt "id1" "ts1" "crs.test/v1" .null [] "none" Option.none

/-- Stored hash of the first witness receipt. -/
def c4h1 : String :=
  match Json.lookup c4r1 "receipt_hash" with
  | Option.some (.str s) => s
  | _ => ""

/-- Second witness receipt, declaring the first receipt's hash as parent. -/
def c4r2 : RDict :=
  CryptoCore.create_receipt "id2" "ts2" "crs.test/v1" .null [c4h1] "none" Option.none

/-- Witness receipt declaring a parent hash that never appeared. -/
def c4r3 : RDict :=
  CryptoCore.create_receipt "id3" "ts3" "crs.test/v1" .null ["sha256:missing"] "none" Option.none

set_option maxRecDepth 400000 in
/-- Witness for C4: a receipt whose declared parent is the valid hash of the
receipt before it passes chain verification, and a receipt declaring an
unknown parent fails it. -/
theorem c4_witness :
    (CryptoCore.chainStep (CryptoCore.chainKnownFrom [] [c4r1]) c4r2 Option.none).chain_valid =
      Option.some true ∧
    (CryptoCore.chainStep (CryptoCore.chainKnownFrom [] []) c4r3 Option.none).chain_valid =
      Option.some false :=
  ⟨(c4_chain_integrity Option.none [c4r1] c4r2 []).2.2 (by decide) (by decide),
   (c4_chain_integrity Option.none [] c4r3 []).2.1 (by decide)⟩
